import Mathlib

/-!
Verification of the pharma-remises matching/allocation core.

Each Python service under `backend/app/services/` that the claims touch is
shallowly embedded below:
* `matching_memory.py`  — Equivalence Memory (union of equivalence groups);
* `intelligent_matching.py` — component extractor, fuzzy matcher, cascade;
* `batch_matching.py` — vectorized batch matcher;
* `optimizer.py` / `combo_optimizer.py` — IP allocation and greedy combo.

Database tables are embedded as in-memory lists of records; SQLAlchemy
queries become list filters; Python dicts keyed by id become lookup
functions (`List.find?`).  Monetary values (`Decimal` / float) are embedded
as `ℚ`.  The OR-Tools solver is external: it is represented by the raw
status it reports and the 0/1 assignment it returns, and theorems about the
optimizer take the feasibility/optimality of that assignment as hypotheses,
exactly the contract the solver guarantees.
-/

namespace PharmaRemises

/-!
## Equivalence Memory (`matching_memory.py`)

The persistent `matching_memory` table is embedded as an association list of
`(cip13, groupe_equivalence_id)` records in insertion order.  Group ids
produced by the service are `max + 1 ≥ 1`, hence always truthy in Python;
`if groupe_a and groupe_b:` is therefore embedded as presence of the record.
-/

/-- Memory state: one `(cip13, groupe_equivalence_id)` pair per stored row. -/
abbrev Memory := List (String × Nat)

/-- Embeds `get_groupe_for_cip`: group id of the first record for `cip`. -/
def get_groupe_for_cip (m : Memory) (cip : String) : Option Nat :=
  (m.find? (fun r => r.1 == cip)).map (·.2)

/-- Embeds `get_next_groupe_id`: `(max groupe_equivalence_id or 0) + 1`. -/
def get_next_groupe_id (m : Memory) : Nat :=
  (m.foldr (fun r acc => max r.2 acc) 0) + 1

/-- Embeds `merge_groupes`: rewrite every record of group `gmerge` to `gkeep`. -/
def merge_groupes (m : Memory) (gkeep gmerge : Nat) : Memory :=
  m.map (fun r => if r.2 = gmerge then (r.1, gkeep) else r)

/-- Embeds `add_to_memory` (the fields other than the cip and the group id do
not affect grouping and are dropped): no-op when the cip is already present,
otherwise append a record with the given group id, or a fresh one. -/
def add_to_memory (m : Memory) (cip : String) (gid : Option Nat) : Memory :=
  if (m.find? (fun r => r.1 == cip)).isSome then m
  else m ++ [(cip, gid.getD (get_next_groupe_id m))]

/-- Result of `register_match`: the new memory plus the returned pair. -/
structure RegisterResult where
  memory : Memory
  groupe : Nat
  isNew : Bool
  deriving Repr, DecidableEq

/-- Embeds `register_match`: union of the groups of `a` and `b`. -/
def register_match (m : Memory) (a b : String) : RegisterResult :=
  match get_groupe_for_cip m a, get_groupe_for_cip m b with
  | some ga, some gb =>
      ⟨if ga ≠ gb then merge_groupes m ga gb else m, ga, false⟩
  | some ga, none => ⟨add_to_memory m b (some ga), ga, false⟩
  | none, some gb => ⟨add_to_memory m a (some gb), gb, false⟩
  | none, none =>
      let g := get_next_groupe_id m
      ⟨add_to_memory (add_to_memory m a (some g)) b (some g), g, true⟩

/-- Two cips are in the same equivalence group. -/
def sameGroup (m : Memory) (x y : String) : Prop :=
  ∃ g, get_groupe_for_cip m x = some g ∧ get_groupe_for_cip m y = some g

lemma get_groupe_merge (m : Memory) (gkeep gmerge : Nat) (cip : String) :
    get_groupe_for_cip (merge_groupes m gkeep gmerge) cip =
      (get_groupe_for_cip m cip).map (fun g => if g = gmerge then gkeep else g) := by
  unfold get_groupe_for_cip merge_groupes
  rw [List.find?_map]
  have hp : ((fun (r : String × Nat) => r.1 == cip) ∘
      (fun r => if r.2 = gmerge then (r.1, gkeep) else r)) =
      (fun (r : String × Nat) => r.1 == cip) := by
    funext r
    by_cases h : r.2 = gmerge <;> simp [h]
  rw [hp]
  cases hf : m.find? (fun r => r.1 == cip) with
  | none => simp
  | some r => by_cases h : r.2 = gmerge <;> simp [h]

lemma get_groupe_append (m : Memory) (c : String) (g : Nat) (x : String) :
    get_groupe_for_cip (m ++ [(c, g)]) x =
      ((get_groupe_for_cip m x).or (if c == x then some g else none)) := by
  unfold get_groupe_for_cip
  rw [List.find?_append]
  cases hf : m.find? (fun r => r.1 == x) with
  | some r => simp [hf]
  | none =>
      cases hcx : (c == x) <;> simp [hf, List.find?, hcx]

lemma find?_none_of_get_none {m : Memory} {x : String}
    (h : get_groupe_for_cip m x = none) :
    m.find? (fun r => r.1 == x) = none :=
  Option.map_eq_none'.mp h

lemma get_groupe_add_present (m : Memory) (cip x : String) (gid : Option Nat)
    (hx : (get_groupe_for_cip m x).isSome) :
    get_groupe_for_cip (add_to_memory m cip gid) x = get_groupe_for_cip m x := by
  unfold add_to_memory
  by_cases hc : (m.find? (fun r => r.1 == cip)).isSome
  · simp [hc]
  · rw [if_neg hc]
    rw [get_groupe_append]
    rcases hfx : get_groupe_for_cip m x with _ | gx
    · rw [hfx] at hx; simp at hx
    · simp

lemma get_groupe_add_self (m : Memory) (cip : String) (g : Nat)
    (h : get_groupe_for_cip m cip = none) :
    get_groupe_for_cip (add_to_memory m cip (some g)) cip = some g := by
  unfold add_to_memory
  have hnone := find?_none_of_get_none h
  simp only [hnone, Option.isSome_none, Bool.false_eq_true, if_false]
  rw [get_groupe_append, h]
  simp

/-- After `register_match m a b`, the codes `a` and `b` share a group. -/
lemma register_match_same (m : Memory) (a b : String) :
    sameGroup (register_match m a b).memory a b := by
  rcases ha : get_groupe_for_cip m a with _ | ga <;>
    rcases hb : get_groupe_for_cip m b with _ | gb
  · -- both absent: fresh group g for both
    simp only [register_match, ha, hb]
    set g := get_next_groupe_id m with hg
    by_cases hab : a = b
    · subst hab
      have h1 := get_groupe_add_self m a g ha
      have h2 : get_groupe_for_cip (add_to_memory (add_to_memory m a (some g)) a (some g)) a
          = some g := by
        rw [get_groupe_add_present _ a a _ (by rw [h1]; rfl), h1]
      exact ⟨g, h2, h2⟩
    · have h1 := get_groupe_add_self m a g ha
      refine ⟨g, ?_, ?_⟩
      · rw [get_groupe_add_present _ b a _ (by rw [h1]; rfl), h1]
      · have hbnone : get_groupe_for_cip (add_to_memory m a (some g)) b = none := by
          unfold add_to_memory
          rw [find?_none_of_get_none ha]
          simp only [Option.isSome_none, Bool.false_eq_true, if_false]
          rw [get_groupe_append, hb]
          have : (a == b) = false := by
            simp [hab]
          simp [this]
        exact get_groupe_add_self _ b g hbnone
  · -- a absent, b grouped
    simp only [register_match, ha, hb]
    refine ⟨gb, get_groupe_add_self m a gb ha, ?_⟩
    rw [get_groupe_add_present m a b _ (by rw [hb]; rfl), hb]
  · -- a grouped, b absent
    simp only [register_match, ha, hb]
    refine ⟨ga, ?_, get_groupe_add_self m b ga hb⟩
    rw [get_groupe_add_present m b a _ (by rw [ha]; rfl), ha]
  · -- both grouped
    by_cases hg : ga = gb
    · subst hg
      simp only [register_match, ha, hb]
      exact ⟨ga, by simp [ha, hb]⟩
    · simp only [register_match, ha, hb, ne_eq, hg, not_false_eq_true, if_true]
      refine ⟨ga, ?_, ?_⟩
      · rw [get_groupe_merge, ha]
        simp [Ne.symm hg]
      · rw [get_groupe_merge, hb]
        simp

/-- `register_match` never separates two codes that already share a group. -/
lemma register_match_preserves (m : Memory) (a b x y : String)
    (h : sameGroup m x y) :
    sameGroup (register_match m a b).memory x y := by
  obtain ⟨g, hx, hy⟩ := h
  rcases ha : get_groupe_for_cip m a with _ | ga <;>
    rcases hb : get_groupe_for_cip m b with _ | gb
  · simp only [register_match, ha, hb]
    set gn := get_next_groupe_id m with hgn
    have hx1 : (get_groupe_for_cip (add_to_memory m a (some gn)) x) = some g := by
      rw [get_groupe_add_present _ a x _ (by rw [hx]; rfl), hx]
    have hy1 : (get_groupe_for_cip (add_to_memory m a (some gn)) y) = some g := by
      rw [get_groupe_add_present _ a y _ (by rw [hy]; rfl), hy]
    refine ⟨g, ?_, ?_⟩
    · rw [get_groupe_add_present _ b x _ (by rw [hx1]; rfl), hx1]
    · rw [get_groupe_add_present _ b y _ (by rw [hy1]; rfl), hy1]
  · simp only [register_match, ha, hb]
    exact ⟨g, by rw [get_groupe_add_present _ a x _ (by rw [hx]; rfl), hx],
            by rw [get_groupe_add_present _ a y _ (by rw [hy]; rfl), hy]⟩
  · simp only [register_match, ha, hb]
    exact ⟨g, by rw [get_groupe_add_present _ b x _ (by rw [hx]; rfl), hx],
            by rw [get_groupe_add_present _ b y _ (by rw [hy]; rfl), hy]⟩
  · by_cases hg : ga = gb
    · subst hg
      simp only [register_match, ha, hb]
      exact ⟨g, by simpa using hx, by simpa using hy⟩
    · simp only [register_match, ha, hb, ne_eq, hg, not_false_eq_true, if_true]
      refine ⟨if g = gb then ga else g, ?_, ?_⟩ <;>
      · rw [get_groupe_merge]
        simp [hx, hy]

/-- C4: transitivity of union via `register_match`, plus disjointness and
transitivity of the group partition in every reachable state. -/
theorem C4_union_transitive :
    (∀ (m : Memory) (a b c : String),
      sameGroup (register_match (register_match m a b).memory b c).memory a c) ∧
    (∀ (m : Memory) (x y z : String),
      sameGroup m x y → sameGroup m y z → sameGroup m x z) ∧
    (∀ (m : Memory) (x : String) (g g' : Nat), g ≠ g' →
      get_groupe_for_cip m x = some g → get_groupe_for_cip m x = some g' → False) := by
  refine ⟨?_, ?_, ?_⟩
  · intro m a b c
    have h1 : sameGroup (register_match m a b).memory a b := register_match_same m a b
    have h2 : sameGroup (register_match (register_match m a b).memory b c).memory a b :=
      register_match_preserves _ b c a b h1
    have h3 : sameGroup (register_match (register_match m a b).memory b c).memory b c :=
      register_match_same _ b c
    obtain ⟨g, hxa, hxb⟩ := h2
    obtain ⟨g', hyb, hyc⟩ := h3
    rw [hxb] at hyb
    exact ⟨g, hxa, by rw [hyc, Option.some_inj.mp hyb]⟩
  · rintro m x y z ⟨g, hx, hy⟩ ⟨g', hy', hz⟩
    rw [hy] at hy'
    exact ⟨g, hx, by rw [hz, Option.some_inj.mp hy']⟩
  · intro m x g g' hne hg hg'
    rw [hg] at hg'
    exact hne (Option.some_inj.mp hg')

/-- Concrete memory for refuting C5: group 1 = {A} (size 1), group 2 = {B, C}
(size 2). -/
def memC5 : Memory := [("A", 1), ("B", 2), ("C", 2)]

/-- C5 counterexample: A's group is strictly smaller than B's, yet after
`register_match memC5 "A" "B"` every member carries group id 1 — the id of
the smaller group (the first argument's group) — not the larger group's id 2
as the claim requires. -/
theorem C5_counterexample :
    (memC5.filter (fun r => r.2 == 1)).length <
      (memC5.filter (fun r => r.2 == 2)).length ∧
    (register_match memC5 "A" "B").memory = [("A", 1), ("B", 1), ("C", 1)] ∧
    get_groupe_for_cip (register_match memC5 "A" "B").memory "C" = some 1 := by
  refine ⟨by decide, by decide, by decide⟩

/-- C5 amended: when the two codes belong to distinct existing groups,
`register_match` merges the second code's group into the first code's group —
every member of b's group is rewritten to a's group id, all other members
keep their id — so the surviving id is the first argument's group id,
irrespective of the groups' sizes. -/
theorem C5_amended (m : Memory) (a b : String) (ga gb : Nat)
    (hga : get_groupe_for_cip m a = some ga)
    (hgb : get_groupe_for_cip m b = some gb)
    (hne : ga ≠ gb) :
    (register_match m a b).memory = merge_groupes m ga gb ∧
    (register_match m a b).groupe = ga ∧
    ∀ cip g, get_groupe_for_cip m cip = some g →
      get_groupe_for_cip (register_match m a b).memory cip =
        some (if g = gb then ga else g) := by
  refine ⟨?_, ?_, ?_⟩
  · unfold register_match
    rw [hga, hgb]
    simp [hne]
  · unfold register_match
    rw [hga, hgb]
  · intro cip g hg
    unfold register_match
    rw [hga, hgb]
    simp only [hne, ne_eq, not_false_eq_true, if_true]
    rw [get_groupe_merge, hg]
    rfl

/-- Witness for C5_amended at the concrete memory `memC5`. -/
theorem C5_amended_witness :
    (register_match memC5 "A" "B").memory = merge_groupes memC5 1 2 :=
  (C5_amended memC5 "A" "B" 1 2 (by decide) (by decide) (by decide)).1

/-!
## Component extractor (`intelligent_matching.py`, class `MoleculeExtractor`)

Python strings are embedded as `List Char` (Lean's `String` functions do not
reduce in the kernel); regular expressions are embedded as explicit scanners
with the same leftmost-match, ordered-alternation, greedy semantics as
`re.search` on the concrete patterns of the source.
-/

/-- Embedded Python string. -/
abbrev Str := List Char

/-- String literal to embedded string. -/
def strOf (s : String) : Str := s.toList

/-- ASCII whitespace class of Python `\s`. -/
def isWs (c : Char) : Bool :=
  c = ' ' || c = '\t' || c = '\n' || c = '\r' || c = '\x0b' || c = '\x0c'

/-- Python `\w` (word) character class, ASCII part. -/
def isWordChar (c : Char) : Bool := c.isAlphanum || c = '_'

/-- Embeds `str.lower()`. -/
def lowerStr (s : Str) : Str := s.map Char.toLower

/-- Embeds `str.upper()`. -/
def upperStr (s : Str) : Str := s.map Char.toUpper

/-- Embeds `str.strip()`. -/
def trimStr (s : Str) : Str := ((s.dropWhile isWs).reverse.dropWhile isWs).reverse

/-- Embeds `int()` on a digit string. -/
def digitsToNat (cs : Str) : Nat := cs.foldl (fun a c => a * 10 + (c.toNat - 48)) 0

/-- Case-insensitive literal match at the head; returns consumed length. -/
def ciPrefixLen : Str → Str → Option Nat
  | [], _ => some 0
  | _ :: _, [] => none
  | p :: ps, c :: cs =>
      if p.toLower = c.toLower then (ciPrefixLen ps cs).map (· + 1) else none

/-- Character class `[\d,\.]` of DOSAGE_PATTERN. -/
def digitCommaDot (c : Char) : Bool := c.isDigit || c = ',' || c = '.'

/-- Unit alternatives of DOSAGE_PATTERN in regex order; the optional `s?` of
`microgrammes?` is expanded greedily (plural first). -/
def dosageUnits : List Str :=
  [strOf "mg", strOf "g", strOf "ml", strOf "%", strOf "microgrammes",
   strOf "microgramme", strOf "mcg", strOf "ui", strOf "mmol", strOf "µg"]

/-- Unit alternatives of the optional `/...` part of DOSAGE_PATTERN. -/
def dosageSlashUnits : List Str := [strOf "ml", strOf "g", strOf "dose"]

/-- Match of the optional `(?:/\s*\d+\s*(?:ml|g|dose))?` part at the head. -/
def dosageSlashLen (cs : Str) : Option Nat :=
  match cs with
  | '/' :: r1 =>
      let sp := (r1.takeWhile isWs).length
      let r2 := r1.drop sp
      let dg := (r2.takeWhile Char.isDigit).length
      if dg = 0 then none else
      let r3 := r2.drop dg
      let sp2 := (r3.takeWhile isWs).length
      let r4 := r3.drop sp2
      match dosageSlashUnits.findSome? (fun u => ciPrefixLen u r4) with
      | none => none
      | some ul => some (1 + sp + dg + sp2 + ul)
  | _ => none

/-- Match of DOSAGE_PATTERN
`(\d+[\d,\.]*\s*(?:mg|g|ml|%|microgrammes?|mcg|ui|mmol|µg)(?:/\s*\d+\s*(?:ml|g|dose))?)`
(IGNORECASE) at the head of `cs`; returns the length of the whole match
(= capture group 1). -/
def dosageLen (cs : Str) : Option Nat :=
  let d1 := (cs.takeWhile Char.isDigit).length
  if d1 = 0 then none else
  let r1 := cs.drop d1
  let d2 := (r1.takeWhile digitCommaDot).length
  let r2 := r1.drop d2
  let sp := (r2.takeWhile isWs).length
  let r3 := r2.drop sp
  match dosageUnits.findSome? (fun u => ciPrefixLen u r3) with
  | none => none
  | some ul =>
      let base := d1 + d2 + sp + ul
      match dosageSlashLen (r3.drop ul) with
      | some sl => some (base + sl)
      | none => some base

/-- Embeds `DOSAGE_PATTERN.search(...).group(1)`: leftmost match. -/
def dosageSearchFrom : Str → Option Str
  | [] => none
  | c :: rest =>
      match dosageLen (c :: rest) with
      | some n => some ((c :: rest).take n)
      | none => dosageSearchFrom rest

/-- Fuelled worker for `DOSAGE_PATTERN.sub('', ...)`; the fuel (initially the
length of the text) bounds the number of scan steps, each of which consumes at
least one character. -/
def dosageSubGo : Nat → Str → Str
  | 0, cs => cs
  | _ + 1, [] => []
  | fuel + 1, c :: rest =>
      match dosageLen (c :: rest) with
      | some n => dosageSubGo fuel ((c :: rest).drop n)
      | none => c :: dosageSubGo fuel rest

/-- Embeds `DOSAGE_PATTERN.sub('', text)`: delete every match. -/
def dosageSub (cs : Str) : Str := dosageSubGo cs.length cs

/-- Embeds `_normalize_dosage`: lowercase, drop whitespace, comma to dot. -/
def normalize_dosage (d : Str) : Str :=
  if d = [] then [] else
  ((lowerStr d).filter (fun c => !(isWs c))).map (fun c => if c = ',' then '.' else c)

/-- Package-form alternatives `cpr|cp|gel|caps|comp` of CONDITIONNEMENT_PATTERN. -/
def condForms : List Str :=
  [strOf "cpr", strOf "cp", strOf "gel", strOf "caps", strOf "comp"]

/-- Box-prefix alternatives `bt|bte|boite|plq` of CONDITIONNEMENT_PATTERN. -/
def condPrefixes : List Str :=
  [strOf "bt", strOf "bte", strOf "boite", strOf "plq"]

/-- First alternative `[Bb]/?\s*(\d+)` of CONDITIONNEMENT_PATTERN; returns the
value of capture group 1. -/
def condAlt1 : Str → Option Nat
  | c :: r1 =>
      if c = 'B' || c = 'b' then
        let r2 := match r1 with
          | '/' :: r => r
          | _ => r1
        let r3 := r2.drop ((r2.takeWhile isWs).length)
        let ds := r3.takeWhile Char.isDigit
        if ds = [] then none else some (digitsToNat ds)
      else none
  | [] => none

/-- Tail `\s*(?:de\s+)?(\d+)\s*(?:cpr|cp|gel|caps|comp)` of the second
alternative; the optional `de\s+` is tried greedily first, with backtracking. -/
def condAlt2Tail (cs : Str) : Option Nat :=
  let core : Str → Option Nat := fun r =>
    let ds := r.takeWhile Char.isDigit
    if ds = [] then none else
    let r2 := r.drop ds.length
    let sp := (r2.takeWhile isWs).length
    let r3 := r2.drop sp
    match condForms.findSome? (fun u => ciPrefixLen u r3) with
    | none => none
    | some _ => some (digitsToNat ds)
  let r1 := cs.drop ((cs.takeWhile isWs).length)
  let afterDe : Option Str :=
    match ciPrefixLen (strOf "de") r1 with
    | some n =>
        let r2 := r1.drop n
        let w := (r2.takeWhile isWs).length
        if w = 0 then none else some (r2.drop w)
    | none => none
  match afterDe with
  | some r => (core r).orElse (fun _ => core r1)
  | none => core r1

/-- Second alternative `(?:bt|bte|boite|plq)?\s*(?:de\s+)?(\d+)\s*(?:...)` of
CONDITIONNEMENT_PATTERN, with the optional prefix alternatives tried in regex
order and the empty option last. -/
def condAlt2 (cs : Str) : Option Nat :=
  match condPrefixes.findSome?
      (fun p => (ciPrefixLen p cs).bind (fun n => condAlt2Tail (cs.drop n))) with
  | some v => some v
  | none => condAlt2Tail cs

/-- Embeds `CONDITIONNEMENT_PATTERN.search` plus `int(group(1) or group(2))`:
leftmost position, first alternative preferred. -/
def condSearchFrom : Str → Option Nat
  | [] => none
  | c :: rest =>
      match condAlt1 (c :: rest) with
      | some v => some v
      | none =>
          match condAlt2 (c :: rest) with
          | some v => some v
          | none => condSearchFrom rest

/-- FORMES_MAPPING in source (insertion) order. -/
def FORMES_MAPPING : List (Str × Str) :=
  [(strOf "cpr", strOf "comprime"), (strOf "cp", strOf "comprime"),
   (strOf "comp", strOf "comprime"), (strOf "comprime", strOf "comprime"),
   (strOf "gel", strOf "gelule"), (strOf "gelule", strOf "gelule"),
   (strOf "caps", strOf "capsule"), (strOf "capsule", strOf "capsule"),
   (strOf "sol", strOf "solution"), (strOf "solution", strOf "solution"),
   (strOf "susp", strOf "suspension"), (strOf "suspension", strOf "suspension"),
   (strOf "inj", strOf "injectable"), (strOf "injectable", strOf "injectable"),
   (strOf "sirop", strOf "sirop"), (strOf "cr", strOf "creme"),
   (strOf "creme", strOf "creme"), (strOf "pom", strOf "pommade"),
   (strOf "pommade", strOf "pommade"), (strOf "sachet", strOf "sachet"),
   (strOf "patch", strOf "patch"), (strOf "collyre", strOf "collyre"),
   (strOf "spray", strOf "spray"), (strOf "aerosol", strOf "aerosol"),
   (strOf "suppo", strOf "suppositoire"), (strOf "suppositoire", strOf "suppositoire"),
   (strOf "ovule", strOf "ovule"), (strOf "granule", strOf "granule"),
   (strOf "pdre", strOf "poudre"), (strOf "poudre", strOf "poudre"),
   (strOf "fl", strOf "flacon"), (strOf "flacon", strOf "flacon"),
   (strOf "amp", strOf "ampoule"), (strOf "ampoule", strOf "ampoule")]

/-- LABOS_CONNUS (a Python set; only membership matters). -/
def LABOS_CONNUS : List Str :=
  [strOf "viatris", strOf "zentiva", strOf "biogaran", strOf "sandoz",
   strOf "teva", strOf "mylan", strOf "arrow", strOf "eg", strOf "cristers",
   strOf "accord", strOf "ranbaxy", strOf "zydus", strOf "sun", strOf "almus",
   strOf "bgr", strOf "ratiopharm", strOf "actavis", strOf "winthrop",
   strOf "pfizer", strOf "sanofi", strOf "bayer", strOf "novartis",
   strOf "roche", strOf "merck", strOf "gsk", strOf "astrazeneca",
   strOf "lilly", strOf "abbott", strOf "lab", strOf "labo",
   strOf "laboratoire", strOf "generique", strOf "generic", strOf "gen"]

/-- Worker for `re.search(rf'\b...\b', text)` with a literal word pattern:
scans positions left to right carrying the previous character for the left
boundary test. -/
def wbSearchGo (pat : Str) : Str → Option Char → Bool
  | cs, prev =>
      let okHere :=
        (match prev with
         | some p => !isWordChar p
         | none => true)
        && pat.isPrefixOf cs
        && (match cs.drop pat.length with
            | [] => true
            | c :: _ => !isWordChar c)
      if okHere then true
      else
        match cs with
        | [] => false
        | c :: rest => wbSearchGo pat rest (some c)

/-- Word-boundary search of a literal pattern (used for the form lookup). -/
def wbSearch (pat text : Str) : Bool := wbSearchGo pat text none

/-- Embeds Python `text.split()`: split on whitespace runs, dropping empties. -/
def splitWsAux : Str → Str → List Str
  | [], cur => if cur = [] then [] else [cur.reverse]
  | c :: rest, cur =>
      if isWs c then
        if cur = [] then splitWsAux rest []
        else cur.reverse :: splitWsAux rest []
      else splitWsAux rest (c :: cur)

/-- Whitespace split of a designation into words. -/
def splitWs (cs : Str) : List Str := splitWsAux cs []

/-- Embeds `re.sub(r'[^\w]', '', word).lower()`. -/
def cleanWord (w : Str) : Str := lowerStr (w.filter isWordChar)

/-- Embeds `re.match(r'^\d', word)`. -/
def firstIsDigit : Str → Bool
  | c :: _ => c.isDigit
  | [] => false

/-- Molecule-word accumulation loop of `extract_from_commercial_name`. -/
def moleculePartsGo : List Str → List Str → List Str
  | [], acc => acc.reverse
  | w :: ws, acc =>
      let wc := cleanWord w
      if firstIsDigit wc then acc.reverse
      else if LABOS_CONNUS.contains wc then moleculePartsGo ws acc
      else if wc.length ≤ 2 then moleculePartsGo ws acc
      else if FORMES_MAPPING.any (fun ab => ab.1 == wc) then moleculePartsGo ws acc
      else
        let acc2 := upperStr wc :: acc
        if 2 ≤ acc2.length then acc2.reverse else moleculePartsGo ws acc2

/-- Embeds `' '.join(parts)`. -/
def joinSpace : List Str → Str
  | [] => []
  | [w] => w
  | w :: ws => w ++ ' ' :: joinSpace ws

/-- Embeds `re.sub(r'\s+', ' ', text)`. -/
def collapseWsGo : Str → Bool → Str
  | [], _ => []
  | c :: rest, prevWs =>
      if isWs c then
        if prevWs then collapseWsGo rest true
        else ' ' :: collapseWsGo rest true
      else c :: collapseWsGo rest false

/-- Collapse of whitespace runs to single spaces. -/
def collapseWs (cs : Str) : Str := collapseWsGo cs false

/-- Embeds `text.rsplit(',', 1)[1]` (text after the last comma). -/
def afterLastComma (cs : Str) : Str :=
  (cs.reverse.takeWhile (fun c => c ≠ ',')).reverse

/-- Embeds Python `pat in text` (substring containment). -/
def isSubstr (pat : Str) : Str → Bool
  | [] => pat.isPrefixOf []
  | c :: rest => pat.isPrefixOf (c :: rest) || isSubstr pat rest

/-- Fuelled worker for `text.split(sep)` with a non-empty separator. -/
def splitSepGo (sep : Str) : Nat → Str → Str → List Str
  | 0, cs, cur => [cur.reverse ++ cs]
  | fuel + 1, cs, cur =>
      if sep.isPrefixOf cs then
        cur.reverse :: splitSepGo sep fuel (cs.drop sep.length) []
      else
        match cs with
        | [] => [cur.reverse]
        | c :: rest => splitSepGo sep fuel rest (c :: cur)

/-- Embeds `text.split(sep)` for a non-empty separator. -/
def splitSep (sep cs : Str) : List Str := splitSepGo sep (cs.length + 1) cs []

/-- Embeds the `MoleculeComponents` dataclass. -/
structure MoleculeComponents where
  molecule : Str := []
  dosage : Option Str := none
  forme : Option Str := none
  conditionnement : Option Nat := none
  princeps : Option Str := none
  raw_text : Str := []
  deriving Repr, DecidableEq

/-- Embeds `MoleculeExtractor.extract_from_commercial_name`. -/
def extract_from_commercial_name (name : Str) : MoleculeComponents :=
  if name = [] then { raw_text := [] }
  else
    let text := trimStr name
    let dosage := (dosageSearchFrom text).map normalize_dosage
    let cond := condSearchFrom text
    let textLower := lowerStr text
    let forme := (FORMES_MAPPING.find? (fun ab => wbSearch ab.1 textLower)).map (·.2)
    let parts := moleculePartsGo (splitWs text) []
    { molecule := joinSpace parts, dosage := dosage, forme := forme,
      conditionnement := cond, raw_text := name }

/-- Embeds `MoleculeExtractor.extract_from_libelle_groupe`. -/
def extract_from_libelle_groupe (libelle : Str) : MoleculeComponents :=
  if libelle = [] then { raw_text := [] }
  else
    let parts := splitSep (strOf " - ") libelle
    let generic_part := trimStr (parts.headD [])
    let princeps_part : Option Str :=
      match parts with
      | _ :: p :: _ => some (trimStr p)
      | _ => none
    let forme : Option Str :=
      if libelle.contains ',' then
        let forme_text := lowerStr (trimStr (afterLastComma libelle))
        match FORMES_MAPPING.find?
            (fun ab => isSubstr ab.1 forme_text || isSubstr ab.2 forme_text) with
        | some ab => some ab.2
        | none => some forme_text
      else none
    let dosage := (dosageSearchFrom generic_part).map normalize_dosage
    let molecule := upperStr (collapseWs (trimStr (dosageSub generic_part)))
    let princeps := princeps_part.map
      (fun pp => trimStr (dosageSub (pp.takeWhile (fun c => c ≠ ','))))
    { molecule := molecule, dosage := dosage, forme := forme,
      conditionnement := none, princeps := princeps, raw_text := libelle }

/-- C9 counterexample: on the claimed input the extractor returns the dosage
string lowercased by `_normalize_dosage`, i.e. "5mg", not "5MG". -/
theorem C9_counterexample :
    (extract_from_commercial_name (strOf "AMLODIPINE BIOGARAN 5mg CPR B/30")).dosage
      = some (strOf "5mg") ∧
    (extract_from_commercial_name (strOf "AMLODIPINE BIOGARAN 5mg CPR B/30")).dosage
      ≠ some (strOf "5MG") := by
  refine ⟨by decide, by decide⟩

/-- C9 amended: on "AMLODIPINE BIOGARAN 5mg CPR B/30" the extractor yields
molecule AMLODIPINE (supplier token BIOGARAN and packaging token B/30
removed), dosage "5mg" (unit lowercased by normalization), form comprime, and
packaging count 30. -/
theorem C9_amended :
    extract_from_commercial_name (strOf "AMLODIPINE BIOGARAN 5mg CPR B/30") =
      { molecule := strOf "AMLODIPINE", dosage := some (strOf "5mg"),
        forme := some (strOf "comprime"), conditionnement := some 30,
        princeps := none,
        raw_text := strOf "AMLODIPINE BIOGARAN 5mg CPR B/30" } := by
  decide

/-!
## Fuzzy matcher (`intelligent_matching.py`, class `FuzzyMatcher`)

The RapidFuzz similarity scorers (`fuzz.WRatio`, `fuzz.ratio`,
`fuzz.partial_ratio`) are external library functions; they are embedded as
abstract parameters bundled in `Scorers`, with their documented range
`[0, 100]` taken as a hypothesis where a theorem needs it.  The
`utils.default_process` preprocessing the source passes to the library is
absorbed into the abstract scorer.
-/

/-- Abstract RapidFuzz scorers (each maps two strings to a score). -/
structure Scorers where
  wratio : Str → Str → ℚ
  ratio : Str → Str → ℚ
  partialRatio : Str → Str → ℚ

/-- Scores of a scorer family lie in [0, 100] (documented RapidFuzz range). -/
def ScorerBounds (sc : Scorers) : Prop :=
  (∀ a b, 0 ≤ sc.wratio a b ∧ sc.wratio a b ≤ 100) ∧
  (∀ a b, 0 ≤ sc.ratio a b ∧ sc.ratio a b ≤ 100) ∧
  (∀ a b, 0 ≤ sc.partialRatio a b ∧ sc.partialRatio a b ≤ 100)

/-- Python truthiness of an optional string (absent or empty is falsy). -/
def strTruthy : Option Str → Bool
  | some s => !s.isEmpty
  | none => false

/-- Python truthiness of an optional integer (absent or zero is falsy). -/
def natTruthy : Option Nat → Bool
  | some n => n ≠ 0
  | none => false

/-- Embeds Python `round` to an integer: round half to even. -/
def bankersRound (q : ℚ) : ℤ :=
  if 1/2 < q - ⌊q⌋ then ⌊q⌋ + 1
  else if q - ⌊q⌋ < 1/2 then ⌊q⌋
  else if ⌊q⌋ % 2 = 0 then ⌊q⌋ else ⌊q⌋ + 1

/-- Embeds Python `round(x, 2)` (on ideal, non-floating values). -/
def round2 (q : ℚ) : ℚ := (bankersRound (q * 100) : ℚ) / 100

/-- Embeds `FuzzyMatcher.calculate_component_score`: weighted combination of
the component similarities, weights renormalized over the present
components. -/
def calculate_component_score (sc : Scorers) (q t : MoleculeComponents) : ℚ :=
  let molPart : List (ℚ × ℚ) :=
    if !q.molecule.isEmpty && !t.molecule.isEmpty then
      [(sc.wratio q.molecule t.molecule, 50/100)]
    else []
  let dosPart : List (ℚ × ℚ) :=
    if strTruthy q.dosage && strTruthy t.dosage then
      let qd := (lowerStr (q.dosage.getD [])).filter (fun c => c ≠ ' ')
      let td := (lowerStr (t.dosage.getD [])).filter (fun c => c ≠ ' ')
      [(if qd = td then 100 else sc.ratio qd td, 30/100)]
    else []
  let formPart : List (ℚ × ℚ) :=
    if strTruthy q.forme && strTruthy t.forme then
      [(sc.partialRatio (q.forme.getD []) (t.forme.getD []), 20/100)]
    else []
  let entries := molPart ++ dosPart ++ formPart
  if entries = [] then 0
  else
    let totalW := (entries.map (·.2)).sum
    (entries.map (fun e => e.1 * (e.2 / totalW))).sum

/-- Model of `rapidfuzz.process.extract`: score every choice, keep those at or
above the cutoff, sort by score descending (stable, as `heapq.nlargest`),
return the first `limit` as (choice, score, original index). -/
def extractTopModel (scorer : Str → Str → ℚ) (query : Str) (choices : List Str)
    (limit : Nat) (cutoff : ℚ) : List (Str × ℚ × Nat) :=
  let scored := choices.enum.map (fun ic => (ic.2, scorer query ic.2, ic.1))
  let kept := scored.filter (fun t => decide (cutoff ≤ t.2.1))
  (kept.mergeSort (fun a b => decide (b.2.1 ≤ a.2.1))).take limit

/-- Embeds `FuzzyMatcher.match_molecule` (WRatio, `score_cutoff = 60.0`). -/
def match_molecule (sc : Scorers) (query : Str) (choices : List Str)
    (limit : Nat) : List (Str × ℚ × Nat) :=
  if query.isEmpty || choices.isEmpty then []
  else extractTopModel sc.wratio query choices limit 60

/-- Embeds `FuzzyMatcher.match_commercial_name` (partial_ratio, cutoff 60). -/
def match_commercial_name (sc : Scorers) (query : Str) (choices : List Str)
    (limit : Nat) : List (Str × ℚ × Nat) :=
  if query.isEmpty || choices.isEmpty then []
  else extractTopModel sc.partialRatio query choices limit 60

/-!
## Intelligent matcher (`intelligent_matching.py`, class `IntelligentMatcher`)

The database content seen by the matcher is a `MatchEnv`; the TTL caches of
the source only memoize these pure queries and are dropped.
-/

/-- Embeds the `catalogue_produits` row (the fields the matcher reads). -/
structure CatalogueProduit where
  id : Nat
  laboratoire_id : Nat
  code_cip : Option Str
  nom_commercial : Option Str
  groupe_generique_id : Option Nat
  libelle_groupe : Option Str
  conditionnement : Option Nat
  prix_fabricant : Option ℚ
  remise_pct : Option ℚ
  actif : Bool
  deriving Repr, DecidableEq

/-- Embeds the `bdpm_equivalences` row (the fields the matcher reads). -/
structure BdpmEquivalence where
  cip13 : Str
  groupe_generique_id : Option Nat
  libelle_groupe : Option Str
  deriving Repr, DecidableEq

/-- Embeds the `MatchResult` dataclass. -/
structure MatchResult where
  produit_id : Nat
  laboratoire_id : Nat
  laboratoire_nom : Str
  code_cip : Str
  nom_commercial : Str
  groupe_generique_id : Option Nat
  score : ℚ
  match_type : Str
  prix_fabricant : Option ℚ := none
  remise_pct : Option ℚ := none
  matched_on : Option Str := none
  deriving Repr, DecidableEq

/-- Database snapshot consumed by the matcher: catalogue products, active
laboratories (id, name), the BDPM reference table, and the scorer family. -/
structure MatchEnv where
  produits : List CatalogueProduit
  labs : List (Nat × Str)
  bdpm : List BdpmEquivalence
  sc : Scorers

/-- Embeds `labs_map.get(lab_id, "?")`. -/
def labsMapGet (env : MatchEnv) (lid : Nat) : Str :=
  ((env.labs.find? (fun l => l.1 == lid)).map (·.2)).getD (strOf "?")

/-- Embeds `_get_products_by_cip()[cip]`: active products whose stripped cip
equals the key, in catalogue order. -/
def productsByCip (env : MatchEnv) (cip : Str) : List CatalogueProduit :=
  env.produits.filter
    (fun p => p.actif && strTruthy p.code_cip && trimStr (p.code_cip.getD []) == cip)

/-- Embeds `_get_products_by_groupe()[gid]`. -/
def productsByGroupe (env : MatchEnv) (gid : Nat) : List CatalogueProduit :=
  env.produits.filter
    (fun p => p.actif && p.groupe_generique_id.isSome
      && p.groupe_generique_id.getD 0 == gid)

/-- Embeds `_lookup_groupe_from_bdpm`: keep the digits of the cip, at most the
last 13, look the result up in the BDPM table, return the (truthy) generic
group id with its label. -/
def lookup_groupe_from_bdpm (env : MatchEnv) (cip : Str) : Option (Nat × Str) :=
  if cip.isEmpty then none
  else
    let cipDigits := cip.filter Char.isDigit
    let cipClean :=
      if 13 < cipDigits.length then cipDigits.drop (cipDigits.length - 13)
      else cipDigits
    match env.bdpm.find? (fun b => b.cip13 == cipClean) with
    | some b =>
        if natTruthy b.groupe_generique_id then
          some (b.groupe_generique_id.getD 0, b.libelle_groupe.getD [])
        else none
    | none => none

/-- Order used by every return of `find_matches_for_product`:
`sorted(results, key=lambda x: (-x.score, x.laboratoire_nom))`. -/
def resLE (a b : MatchResult) : Bool :=
  decide (b.score < a.score) ||
    (decide (a.score = b.score) && decide (a.laboratoire_nom ≤ b.laboratoire_nom))

/-- Stable sort by descending score, ties by laboratory name ascending. -/
def sortRes (rs : List MatchResult) : List MatchResult := rs.mergeSort resLE

/-- Embeds `if target_lab_id and p.laboratoire_id != target_lab_id: continue`. -/
def labAllowed (targetLab : Option Nat) (p : CatalogueProduit) : Bool :=
  !(natTruthy targetLab && p.laboratoire_id != targetLab.getD 0)

/-- Tier-1 match record (score 100, type exact_cip). -/
def mkTier1Result (env : MatchEnv) (p : CatalogueProduit) : MatchResult :=
  { produit_id := p.id, laboratoire_id := p.laboratoire_id,
    laboratoire_nom := labsMapGet env p.laboratoire_id,
    code_cip := p.code_cip.getD [], nom_commercial := p.nom_commercial.getD [],
    groupe_generique_id := p.groupe_generique_id, score := 100,
    match_type := strOf "exact_cip",
    prix_fabricant := p.prix_fabricant, remise_pct := p.remise_pct }

/-- Tier 1 of `find_matches_for_product`: exact cip in the catalogue. -/
def tier1Results (env : MatchEnv) (code_cip : Option Str)
    (targetLab : Option Nat) : List MatchResult :=
  if strTruthy code_cip then
    ((productsByCip env (trimStr (code_cip.getD []))).filter
      (labAllowed targetLab)).map (mkTier1Result env)
  else []

/-- Tier-2 match record (score 95, type groupe_generique_bdpm). -/
def mkTier2Result (env : MatchEnv) (gid : Nat) (p : CatalogueProduit) : MatchResult :=
  { produit_id := p.id, laboratoire_id := p.laboratoire_id,
    laboratoire_nom := labsMapGet env p.laboratoire_id,
    code_cip := p.code_cip.getD [], nom_commercial := p.nom_commercial.getD [],
    groupe_generique_id := p.groupe_generique_id, score := 95,
    match_type := strOf "groupe_generique_bdpm",
    prix_fabricant := p.prix_fabricant, remise_pct := p.remise_pct,
    matched_on := some (strOf "Groupe " ++ (toString gid).toList) }

/-- Tier 2 of `find_matches_for_product`: generic group via the BDPM table. -/
def tier2Results (env : MatchEnv) (code_cip : Option Str)
    (targetLab : Option Nat) : List MatchResult :=
  if strTruthy code_cip then
    match lookup_groupe_from_bdpm env (code_cip.getD []) with
    | some (gid, _) =>
        ((productsByGroupe env gid).filter (labAllowed targetLab)).map
          (mkTier2Result env gid)
    | none => []
  else []

/-- Append to a bucket of a Python dict keyed by molecule (insertion order). -/
def assocAppend :
    List (Str × List (CatalogueProduit × MoleculeComponents)) → Str →
      CatalogueProduit × MoleculeComponents →
      List (Str × List (CatalogueProduit × MoleculeComponents))
  | [], k, v => [(k, [v])]
  | (k0, vs) :: rest, k, v =>
      if k0 = k then (k0, vs ++ [v]) :: rest
      else (k0, vs) :: assocAppend rest k v

/-- Components of a candidate product: from its group label when present,
otherwise from its commercial name. -/
def targetComponents (p : CatalogueProduit) : MoleculeComponents :=
  if strTruthy p.libelle_groupe then
    extract_from_libelle_groupe (p.libelle_groupe.getD [])
  else extract_from_commercial_name (p.nom_commercial.getD [])

/-- Embeds the `molecule_to_products` index construction. -/
def buildMoleculeIndex (env : MatchEnv) (targetLab : Option Nat) :
    List (Str × List (CatalogueProduit × MoleculeComponents)) :=
  (env.produits.filter (·.actif)).foldl
    (fun idx p =>
      if !labAllowed targetLab p then idx
      else
        let tc := targetComponents p
        if !tc.molecule.isEmpty then assocAppend idx (upperStr tc.molecule) (p, tc)
        else idx)
    []

/-- Tier-3 match record. -/
def mkTier3Result (env : MatchEnv) (p : CatalogueProduit) (mt : Str)
    (score : ℚ) : MatchResult :=
  { produit_id := p.id, laboratoire_id := p.laboratoire_id,
    laboratoire_nom := labsMapGet env p.laboratoire_id,
    code_cip := p.code_cip.getD [], nom_commercial := p.nom_commercial.getD [],
    groupe_generique_id := p.groupe_generique_id, score := score,
    match_type := mt, prix_fabricant := p.prix_fabricant,
    remise_pct := p.remise_pct }

/-- Inner tier-3 loop over one molecule bucket, threading the `seen_products`
set (embedded as a list used for membership only). -/
def tier3Inner (env : MatchEnv) (qc : MoleculeComponents) (molScore : ℚ) :
    List (CatalogueProduit × MoleculeComponents) → List Nat →
      List MatchResult × List Nat
  | [], seen => ([], seen)
  | (p, tc) :: rest, seen =>
      if seen.contains p.id then tier3Inner env qc molScore rest seen
      else
        let seen2 := p.id :: seen
        let cs := calculate_component_score env.sc qc tc
        let isGG := natTruthy p.groupe_generique_id && decide ((95:ℚ) ≤ molScore)
        let final := if isGG then min 100 (cs * (105/100)) else cs * (85/100)
        let mt := if isGG then strOf "groupe_generique" else strOf "fuzzy_molecule"
        let pr := tier3Inner env qc molScore rest seen2
        if (60:ℚ) ≤ final then (mkTier3Result env p mt (round2 final) :: pr.1, pr.2)
        else pr

/-- Outer tier-3 loop over the fuzzy molecule matches. -/
def tier3Outer (env : MatchEnv) (qc : MoleculeComponents)
    (idx : List (Str × List (CatalogueProduit × MoleculeComponents))) :
    List (Str × ℚ × Nat) → List Nat → List MatchResult
  | [], _ => []
  | (mol, ms, _) :: rest, seen =>
      let bucket := ((idx.find? (fun e => e.1 == mol)).map (·.2)).getD []
      let pr := tier3Inner env qc ms bucket seen
      pr.1 ++ tier3Outer env qc idx rest pr.2

/-- Tier 3 of `find_matches_for_product`: fuzzy match on extracted
components. -/
def tier3Results (env : MatchEnv) (designation : Str)
    (targetLab : Option Nat) : List MatchResult :=
  let qc := extract_from_commercial_name designation
  let idx := buildMoleculeIndex env targetLab
  if !qc.molecule.isEmpty && !idx.isEmpty then
    tier3Outer env qc idx (match_molecule env.sc qc.molecule (idx.map (·.1)) 10) []
  else []

/-- Tier-4 match record (type fuzzy_commercial). -/
def mkTier4Result (env : MatchEnv) (p : CatalogueProduit) (score : ℚ) : MatchResult :=
  { produit_id := p.id, laboratoire_id := p.laboratoire_id,
    laboratoire_nom := labsMapGet env p.laboratoire_id,
    code_cip := p.code_cip.getD [], nom_commercial := p.nom_commercial.getD [],
    groupe_generique_id := p.groupe_generique_id, score := score,
    match_type := strOf "fuzzy_commercial",
    prix_fabricant := p.prix_fabricant, remise_pct := p.remise_pct }

/-- Tier 4 of `find_matches_for_product`: fuzzy match on full commercial
names (cap 70, floor 50). -/
def tier4Results (env : MatchEnv) (designation : Str)
    (targetLab : Option Nat) : List MatchResult :=
  let filtered := (env.produits.filter (·.actif)).filter
      (fun p => labAllowed targetLab p && strTruthy p.nom_commercial)
  if filtered.isEmpty then []
  else
    let names := filtered.map (fun p => p.nom_commercial.getD [])
    (match_commercial_name env.sc designation names 5).filterMap
      (fun t =>
        match filtered[t.2.2]? with
        | some p =>
            let final := t.2.1 * (70/100)
            if (50:ℚ) ≤ final then some (mkTier4Result env p (round2 final))
            else none
        | none => none)

/-- Embeds `IntelligentMatcher.find_matches_for_product`: the priority
cascade, each return path sorted by (-score, laboratory name). -/
def find_matches_for_product (env : MatchEnv) (designation : Str)
    (code_cip : Option Str) (targetLab : Option Nat) : List MatchResult :=
  let t1 := tier1Results env code_cip targetLab
  if !t1.isEmpty then sortRes t1
  else
    let t2 := tier2Results env code_cip targetLab
    if !t2.isEmpty then sortRes t2
    else
      let t3 := tier3Results env designation targetLab
      sortRes (if t3.isEmpty then tier4Results env designation targetLab else t3)

/-- Embeds the `mes_ventes` row (the fields the matcher reads). -/
structure MesVente where
  id : Nat
  code_cip_achete : Option Str
  designation : Option Str
  quantite_annuelle : Option Int
  montant_annuel : Option ℚ
  deriving Repr, DecidableEq

/-- Embeds the `VenteMatchingResult` dataclass. -/
structure VenteMatchingResult where
  vente_id : Nat
  designation : Str
  code_cip_achete : Option Str
  montant_annuel : ℚ
  quantite_annuelle : Int
  matchesList : List MatchResult
  best_match_by_lab : List (Nat × MatchResult)
  unmatched : Bool
  deriving Repr, DecidableEq

/-- Embeds the `best_match_by_lab` dict accumulation. -/
def bestByLab : List MatchResult → List (Nat × MatchResult) → List (Nat × MatchResult)
  | [], acc => acc
  | m :: ms, acc =>
      match acc.find? (fun e => e.1 == m.laboratoire_id) with
      | none => bestByLab ms (acc ++ [(m.laboratoire_id, m)])
      | some e =>
          if e.2.score < m.score then
            bestByLab ms (acc.map
              (fun e2 => if e2.1 == m.laboratoire_id then (e2.1, m) else e2))
          else bestByLab ms acc

/-- Default of the `min_score` parameter of `match_ventes_to_catalogues`. -/
def match_ventes_default_min_score : ℚ := 60

/-- Loop body of `match_ventes_to_catalogues` for one sale line. -/
def matchOneVente (env : MatchEnv) (min_score : ℚ) (v : MesVente) :
    VenteMatchingResult :=
  let matchesList := find_matches_for_product env (v.designation.getD [])
    v.code_cip_achete none
  let valid := matchesList.filter (fun m => decide (min_score ≤ m.score))
  if !valid.isEmpty then
    { vente_id := v.id, designation := v.designation.getD [],
      code_cip_achete := v.code_cip_achete,
      montant_annuel := v.montant_annuel.getD 0,
      quantite_annuelle := v.quantite_annuelle.getD 0,
      matchesList := valid, best_match_by_lab := bestByLab valid [],
      unmatched := false }
  else
    { vente_id := v.id, designation := v.designation.getD [],
      code_cip_achete := v.code_cip_achete,
      montant_annuel := v.montant_annuel.getD 0,
      quantite_annuelle := v.quantite_annuelle.getD 0,
      matchesList := [], best_match_by_lab := [], unmatched := true }

/-- Embeds `IntelligentMatcher.match_ventes_to_catalogues`. -/
def match_ventes_to_catalogues (env : MatchEnv) (ventes : List MesVente)
    (min_score : ℚ) : List VenteMatchingResult :=
  ventes.map (matchOneVente env min_score)

/-!
## Theorems on the matching cascade (C2, C6, C7)
-/

lemma sortRes_perm (rs : List MatchResult) : (sortRes rs).Perm rs :=
  List.mergeSort_perm rs resLE

lemma mem_sortRes {r : MatchResult} {rs : List MatchResult} :
    r ∈ sortRes rs ↔ r ∈ rs :=
  List.mem_mergeSort

lemma sortRes_single (r : MatchResult) : sortRes [r] = [r] :=
  List.perm_singleton.mp (sortRes_perm [r])

lemma resLE_total (a b : MatchResult) : (resLE a b || resLE b a) = true := by
  unfold resLE
  rcases lt_trichotomy a.score b.score with h | h | h
  · have h1 : ¬ b.score < a.score := lt_asymm h
    simp [h, h1]
  · rcases le_total a.laboratoire_nom b.laboratoire_nom with h2 | h2 <;>
      simp [h, h2, lt_irrefl]
  · simp [h]

lemma resLE_trans (a b c : MatchResult) (h1 : resLE a b = true)
    (h2 : resLE b c = true) : resLE a c = true := by
  unfold resLE at h1 h2 ⊢
  simp only [Bool.or_eq_true, Bool.and_eq_true, decide_eq_true_eq] at h1 h2 ⊢
  rcases h1 with h1 | ⟨h1e, h1n⟩ <;> rcases h2 with h2 | ⟨h2e, h2n⟩
  · exact Or.inl (h2.trans h1)
  · exact Or.inl (h2e ▸ h1)
  · exact Or.inl (by rw [h1e]; exact h2)
  · exact Or.inr ⟨h1e.trans h2e, le_trans h1n h2n⟩

lemma sortRes_sorted (rs : List MatchResult) :
    List.Pairwise (fun a b => resLE a b = true) (sortRes rs) :=
  List.sorted_mergeSort resLE_trans resLE_total rs

/-- Every element of a tier-2 result list scores 95 with the bdpm group
type. -/
lemma tier2_mem (env : MatchEnv) (code_cip : Option Str) (lab : Option Nat)
    (r : MatchResult) (h : r ∈ tier2Results env code_cip lab) :
    r.score = 95 ∧ r.match_type = strOf "groupe_generique_bdpm" := by
  unfold tier2Results at h
  split at h
  · split at h
    · rcases List.mem_map.mp h with ⟨p, _, hp⟩
      subst hp
      exact ⟨rfl, rfl⟩
    · simp at h
  · simp at h

/-- C2 amended: when tier 1 is empty and tier 2 produces candidates, the
cascade returns exactly the sorted tier-2 list, and every candidate has score
95 and type groupe_generique_bdpm — the packaging count plays no role and no
candidate scores 100.  (Tier 2 resolves the code only through the BDPM
reference table, `_lookup_groupe_from_bdpm`.) -/
theorem C2_amended (env : MatchEnv) (designation : Str)
    (code_cip : Option Str) (targetLab : Option Nat)
    (h1 : tier1Results env code_cip targetLab = [])
    (h2 : tier2Results env code_cip targetLab ≠ []) :
    find_matches_for_product env designation code_cip targetLab =
      sortRes (tier2Results env code_cip targetLab) ∧
    ∀ r ∈ find_matches_for_product env designation code_cip targetLab,
      r.score = 95 ∧ r.match_type = strOf "groupe_generique_bdpm" := by
  have heq : find_matches_for_product env designation code_cip targetLab =
      sortRes (tier2Results env code_cip targetLab) := by
    unfold find_matches_for_product
    rw [h1]
    simp only [List.isEmpty_nil, Bool.not_true, Bool.false_eq_true, if_false]
    have h2e : (tier2Results env code_cip targetLab).isEmpty = false := by
      cases hc : tier2Results env code_cip targetLab with
      | nil => exact absurd hc h2
      | cons a l => simp [hc]
    rw [h2e]
    simp
  refine ⟨heq, fun r hr => ?_⟩
  rw [heq] at hr
  exact tier2_mem env code_cip targetLab r (mem_sortRes.mp hr)

/-- All-zero scorer family (tier 3/4 never fire with it). -/
def zeroScorers : Scorers := ⟨fun _ _ => 0, fun _ _ => 0, fun _ _ => 0⟩

/-- Catalogue product for the C2 instance: packaging count 30. -/
def prodC2 : CatalogueProduit :=
  { id := 1, laboratoire_id := 1, code_cip := some (strOf "1110000000000"),
    nom_commercial := some (strOf "AMLODIPINE ZENTIVA 5mg CPR B/30"),
    groupe_generique_id := some 5, libelle_groupe := none,
    conditionnement := some 30, prix_fabricant := none, remise_pct := none,
    actif := true }

/-- Match environment for the C2 instance. -/
def envC2 : MatchEnv :=
  { produits := [prodC2], labs := [(1, strOf "ZENTIVA")],
    bdpm := [{ cip13 := strOf "2220000000000", groupe_generique_id := some 5,
               libelle_groupe := some (strOf "AMLODIPINE 5 mg - AMLOR 5 mg, comprime") }],
    sc := zeroScorers }

/-- Sale-line designation of the C2 instance (packaging token B/30). -/
def desigC2 : Str := strOf "AMLODIPINE BIOGARAN 5mg CPR B/30"

/-- Sale-line code of the C2 instance (resolves to group 5 via BDPM). -/
def cipC2 : Str := strOf "2220000000000"

/-- C2 counterexample: the sale line's packaging count (30) equals the
candidate product's packaging count, yet the tier-2 candidate scores 95, not
100 — the code assigns 95 unconditionally. -/
theorem C2_counterexample :
    (extract_from_commercial_name desigC2).conditionnement = some 30 ∧
    prodC2.conditionnement = some 30 ∧
    find_matches_for_product envC2 desigC2 (some cipC2) none
      = [mkTier2Result envC2 5 prodC2] ∧
    (mkTier2Result envC2 5 prodC2).score = 95 ∧
    ((95 : ℚ) = 100 → False) := by
  have h1 : tier1Results envC2 (some cipC2) none = [] := by decide
  have h2 : tier2Results envC2 (some cipC2) none = [mkTier2Result envC2 5 prodC2] := by
    decide
  have hfm := (C2_amended envC2 desigC2 (some cipC2) none h1 (by rw [h2]; simp)).1
  refine ⟨by decide, by decide, ?_, by decide, by norm_num⟩
  rw [hfm, h2, sortRes_single]

/-- Witness for C2_amended at the concrete C2 environment. -/
theorem C2_amended_witness :
    find_matches_for_product envC2 desigC2 (some cipC2) none =
      sortRes (tier2Results envC2 (some cipC2) none) :=
  (C2_amended envC2 desigC2 (some cipC2) none (by decide)
    (by decide)).1

/-- Singleton lists are fixed by mergeSort. -/
lemma mergeSort_single {α : Type} (a : α) (le : α → α → Bool) :
    List.mergeSort [a] le = [a] :=
  List.perm_singleton.mp (List.mergeSort_perm [a] le)

/-- Every return path of the cascade is a sorted list. -/
lemma find_matches_eq_sortRes (env : MatchEnv) (designation : Str)
    (code_cip : Option Str) (lab : Option Nat) :
    ∃ xs, find_matches_for_product env designation code_cip lab = sortRes xs := by
  simp only [find_matches_for_product]
  split
  · exact ⟨_, rfl⟩
  · split
    · exact ⟨_, rfl⟩
    · exact ⟨_, rfl⟩

/-- The cascade output is sorted by descending score, ties by laboratory
name. -/
lemma find_matches_sorted (env : MatchEnv) (designation : Str)
    (code_cip : Option Str) (lab : Option Nat) :
    List.Pairwise (fun a b => resLE a b = true)
      (find_matches_for_product env designation code_cip lab) := by
  obtain ⟨xs, hxs⟩ := find_matches_eq_sortRes env designation code_cip lab
  rw [hxs]
  exact sortRes_sorted xs

/-- Per-line result: either below-threshold (empty list) or exactly the
filtered candidate list. -/
lemma matchOneVente_matchesList (env : MatchEnv) (ms : ℚ) (v : MesVente) :
    (matchOneVente env ms v).matchesList = [] ∨
    (matchOneVente env ms v).matchesList =
      (find_matches_for_product env (v.designation.getD [])
        v.code_cip_achete none).filter (fun m => decide (ms ≤ m.score)) := by
  by_cases h : ((find_matches_for_product env (v.designation.getD [])
      v.code_cip_achete none).filter (fun m => decide (ms ≤ m.score))).isEmpty
  · left
    simp [matchOneVente, h]
  · right
    simp [matchOneVente, h]

/-- C6 amended: the candidate list attached to each sale line is filtered by
the caller-supplied minimum score threshold, whose default value is 60 (not
70), and is sorted descending by score with ties broken by laboratory name
ascending. -/
theorem C6_amended (env : MatchEnv) (ventes : List MesVente) (min_score : ℚ) :
    match_ventes_default_min_score = 60 ∧
    ∀ vr ∈ match_ventes_to_catalogues env ventes min_score,
      (∀ m ∈ vr.matchesList, min_score ≤ m.score) ∧
      List.Pairwise (fun a b => b.score < a.score ∨
        (a.score = b.score ∧ a.laboratoire_nom ≤ b.laboratoire_nom))
        vr.matchesList := by
  refine ⟨rfl, fun vr hvr => ?_⟩
  unfold match_ventes_to_catalogues at hvr
  rcases List.mem_map.mp hvr with ⟨v, _, hveq⟩
  rcases matchOneVente_matchesList env min_score v with hml | hml <;>
    rw [hveq] at hml
  · rw [hml]
    exact ⟨fun m hm => absurd hm (List.not_mem_nil m), List.Pairwise.nil⟩
  · rw [hml]
    constructor
    · intro m hm
      have h2 := (List.mem_filter.mp hm).2
      simpa using h2
    · refine List.Pairwise.imp ?_
        (List.Pairwise.filter _ (find_matches_sorted env _ _ _))
      intro a b hab
      simpa [resLE, Bool.or_eq_true, Bool.and_eq_true, decide_eq_true_eq]
        using hab

/-- Python `round` returns an integer unchanged. -/
lemma bankersRound_intCast (n : ℤ) : bankersRound (n : ℚ) = n := by
  unfold bankersRound
  rw [Int.floor_intCast]
  norm_num

/-- Evaluation of `round(63, 2)`. -/
lemma round2_63 : round2 63 = 63 := by
  unfold round2
  rw [show ((63:ℚ) * 100) = ((6300:ℤ):ℚ) from by norm_num, bankersRound_intCast]
  norm_num

/-- Scorer family for the C6 instance: partial_ratio constantly 90. -/
def scorersC6 : Scorers := ⟨fun _ _ => 0, fun _ _ => 0, fun _ _ => 90⟩

/-- Catalogue product of the C6 instance. -/
def prodC6 : CatalogueProduit :=
  { id := 1, laboratoire_id := 1, code_cip := none,
    nom_commercial := some (strOf "PARACETAMOL 500mg CPR"),
    groupe_generique_id := none, libelle_groupe := none,
    conditionnement := none, prix_fabricant := none, remise_pct := none,
    actif := true }

/-- Match environment of the C6 instance. -/
def envC6 : MatchEnv :=
  { produits := [prodC6], labs := [(1, strOf "LABA")], bdpm := [],
    sc := scorersC6 }

/-- Sale line of the C6 instance. -/
def venteC6 : MesVente :=
  { id := 1, code_cip_achete := none, designation := some (strOf "5mg"),
    quantite_annuelle := none, montant_annuel := none }

/-- The per-line list equals the filtered candidates when that filter is
non-empty. -/
lemma matchOneVente_matchesList_of_ne (env : MatchEnv) (ms : ℚ) (v : MesVente)
    (h : (find_matches_for_product env (v.designation.getD [])
        v.code_cip_achete none).filter (fun m => decide (ms ≤ m.score)) ≠ []) :
    (matchOneVente env ms v).matchesList =
      (find_matches_for_product env (v.designation.getD [])
        v.code_cip_achete none).filter (fun m => decide (ms ≤ m.score)) := by
  have hne : ((find_matches_for_product env (v.designation.getD [])
      v.code_cip_achete none).filter
        (fun m => decide (ms ≤ m.score))).isEmpty = false := by
    cases hc : (find_matches_for_product env (v.designation.getD [])
        v.code_cip_achete none).filter (fun m => decide (ms ≤ m.score)) with
    | nil => exact absurd hc h
    | cons a l => rfl
  simp [matchOneVente, hne]

/-- C6 counterexample: with the default threshold the per-line result keeps a
candidate of score 63 < 70, so the default threshold is not 70 (it is 60). -/
theorem C6_counterexample :
    match_ventes_default_min_score = 60 ∧
    (match_ventes_default_min_score = 70 → False) ∧
    ∃ vr ∈ match_ventes_to_catalogues envC6 [venteC6]
        match_ventes_default_min_score,
      ∃ m ∈ vr.matchesList, m.score = 63 ∧ ¬ ((70:ℚ) ≤ m.score) := by
  have hmcn : match_commercial_name scorersC6 (strOf "5mg")
      [strOf "PARACETAMOL 500mg CPR"] 5
      = [(strOf "PARACETAMOL 500mg CPR", (90:ℚ), 0)] := by
    unfold match_commercial_name extractTopModel
    rw [if_neg (by decide)]
    rw [show (List.enum [strOf "PARACETAMOL 500mg CPR"]).map
          (fun ic => (ic.2, scorersC6.partialRatio (strOf "5mg") ic.2, ic.1))
        = [(strOf "PARACETAMOL 500mg CPR", (90:ℚ), 0)] from by decide]
    simp only [List.filter_cons, List.filter_nil]
    rw [show (decide ((60:ℚ) ≤ (90:ℚ))) = true from by
      rw [decide_eq_true_eq]; norm_num]
    rw [if_pos rfl, mergeSort_single]
    rfl
  have h4 : tier4Results envC6 (strOf "5mg") none
      = [mkTier4Result envC6 prodC6 (round2 63)] := by
    unfold tier4Results
    rw [show ((envC6.produits.filter (·.actif)).filter
        (fun p => labAllowed none p && strTruthy p.nom_commercial)) = [prodC6]
      from by decide]
    rw [if_neg (by decide)]
    simp only [show ([prodC6].map (fun p => p.nom_commercial.getD []))
        = [strOf "PARACETAMOL 500mg CPR"] from by decide,
      show envC6.sc = scorersC6 from rfl, hmcn]
    simp only [List.filterMap]
    rw [show (([prodC6] : List CatalogueProduit)[(0:Nat)]?) = some prodC6 from rfl]
    simp only []
    rw [show ((90:ℚ) * (70/100)) = 63 from by norm_num]
    rw [if_pos (by norm_num : (50:ℚ) ≤ 63)]
  have hfm : find_matches_for_product envC6 (strOf "5mg") none none
      = [mkTier4Result envC6 prodC6 (round2 63)] := by
    unfold find_matches_for_product
    rw [show tier1Results envC6 none none = [] from by decide]
    rw [show tier2Results envC6 none none = [] from by decide]
    rw [show tier3Results envC6 (strOf "5mg") none = [] from by decide]
    rw [h4]
    simp [sortRes_single]
  have hscore : (mkTier4Result envC6 prodC6 (round2 63)).score = 63 := by
    show round2 63 = 63
    exact round2_63
  have hfilter : (find_matches_for_product envC6 (strOf "5mg") none none).filter
      (fun m => decide (match_ventes_default_min_score ≤ m.score))
      = [mkTier4Result envC6 prodC6 (round2 63)] := by
    rw [hfm]
    simp only [List.filter_cons, List.filter_nil]
    rw [show (decide (match_ventes_default_min_score ≤
        (mkTier4Result envC6 prodC6 (round2 63)).score)) = true from by
      rw [decide_eq_true_eq, hscore]
      norm_num [match_ventes_default_min_score]]
    rw [if_pos rfl]
  have hvalid : (matchOneVente envC6 match_ventes_default_min_score
      venteC6).matchesList = [mkTier4Result envC6 prodC6 (round2 63)] := by
    have := matchOneVente_matchesList_of_ne envC6 match_ventes_default_min_score
      venteC6 (by
        rw [show venteC6.designation.getD [] = strOf "5mg" from rfl,
          show venteC6.code_cip_achete = none from rfl, hfilter]
        simp)
    rw [this, show venteC6.designation.getD [] = strOf "5mg" from rfl,
      show venteC6.code_cip_achete = none from rfl, hfilter]
  refine ⟨rfl, by norm_num [match_ventes_default_min_score], ?_⟩
  refine ⟨matchOneVente envC6 match_ventes_default_min_score venteC6, ?_, ?_⟩
  · unfold match_ventes_to_catalogues
    simp
  · refine ⟨mkTier4Result envC6 prodC6 (round2 63), ?_, hscore, ?_⟩
    · rw [hvalid]
      simp
    · rw [hscore]
      norm_num

/-- Monotone bound for Python rounding: a value at most an integer rounds to
at most that integer. -/
lemma bankersRound_le {q : ℚ} {n : ℤ} (h : q ≤ n) : bankersRound q ≤ n := by
  unfold bankersRound
  have hf : ⌊q⌋ ≤ n := by
    have := Int.floor_le_floor h
    rwa [Int.floor_intCast] at this
  by_cases h1 : (1:ℚ)/2 < q - ⌊q⌋
  · have hlt : ⌊q⌋ < n := by
      rcases lt_or_eq_of_le hf with h2 | h2
      · exact h2
      · exfalso
        have hc : ((⌊q⌋:ℚ)) = ((n:ℚ)) := by exact_mod_cast h2
        have h3 : q - ⌊q⌋ ≤ 0 := by
          rw [hc]
          linarith
        linarith
    rw [if_pos h1]
    omega
  · rw [if_neg h1]
    by_cases h2 : q - ⌊q⌋ < 1/2
    · rw [if_pos h2]
      exact hf
    · rw [if_neg h2]
      have heq : q - ⌊q⌋ = 1/2 := le_antisymm (not_lt.mp h1) (not_lt.mp h2)
      have hlt : ⌊q⌋ < n := by
        rcases lt_or_eq_of_le hf with h3 | h3
        · exact h3
        · exfalso
          have hc : ((⌊q⌋:ℚ)) = ((n:ℚ)) := by exact_mod_cast h3
          have : q = (n:ℚ) + 1/2 := by linarith [heq, hc]
          rw [this] at h
          linarith
      split <;> omega

/-- Rounding to two decimals never pushes a value above 85. -/
lemma round2_le_85 {q : ℚ} (h : q ≤ 85) : round2 q ≤ 85 := by
  unfold round2
  have h1 : q * 100 ≤ ((8500:ℤ):ℚ) := by push_cast; linarith
  have h2 := bankersRound_le h1
  have h3 : ((bankersRound (q * 100) : ℚ)) ≤ ((8500:ℤ):ℚ) := by exact_mod_cast h2
  push_cast at h3
  linarith

/-- Evaluation of `round(100, 2)`. -/
lemma round2_100 : round2 100 = 100 := by
  unfold round2
  rw [show ((100:ℚ) * 100) = ((10000:ℤ):ℚ) from by norm_num, bankersRound_intCast]
  norm_num

/-- With scorers in [0, 100], the weighted component score is at most 100. -/
lemma ccs_le_100 (sc : Scorers) (hb : ScorerBounds sc)
    (q t : MoleculeComponents) : calculate_component_score sc q t ≤ 100 := by
  obtain ⟨hw, hr, hp⟩ := hb
  have hw1 := (hw q.molecule t.molecule).2
  have hr1 := (hr ((lowerStr (q.dosage.getD [])).filter (fun c => c ≠ ' '))
      ((lowerStr (t.dosage.getD [])).filter (fun c => c ≠ ' '))).2
  have hp1 := (hp (q.forme.getD []) (t.forme.getD [])).2
  unfold calculate_component_score
  split_ifs <;>
    simp only [List.nil_append, List.append_nil, List.cons_append,
      List.singleton_append]
  all_goals
    first
    | (norm_num; done)
    | (rw [if_neg (List.cons_ne_nil _ _)]
       simp only [List.map_cons, List.map_nil, List.sum_cons, List.sum_nil,
         add_zero]
       first
       | (split_ifs <;> linarith [hw1, hr1, hp1])
       | linarith [hw1, hr1, hp1])

/-- Tier-1 results all carry the exact_cip type. -/
lemma tier1_mem (env : MatchEnv) (code_cip : Option Str) (lab : Option Nat)
    (r : MatchResult) (h : r ∈ tier1Results env code_cip lab) :
    r.match_type = strOf "exact_cip" := by
  unfold tier1Results at h
  split at h
  · rcases List.mem_map.mp h with ⟨p, _, hp⟩
    subst hp
    rfl
  · simp at h

/-- Tier-4 results all carry the fuzzy_commercial type. -/
lemma tier4_mem (env : MatchEnv) (designation : Str) (lab : Option Nat)
    (r : MatchResult) (h : r ∈ tier4Results env designation lab) :
    r.match_type = strOf "fuzzy_commercial" := by
  simp only [tier4Results] at h
  split at h
  · simp at h
  · rcases List.mem_filterMap.mp h with ⟨t, _, ht⟩
    split at ht
    · split at ht
      · cases ht
        rfl
      · cases ht
    · cases ht

/-- Tier-3 results are either bonus groupe_generique matches or
fuzzy_molecule matches bounded by 85. -/
lemma tier3Inner_types (env : MatchEnv) (hb : ScorerBounds env.sc)
    (qc : MoleculeComponents) (ms : ℚ)
    (bucket : List (CatalogueProduit × MoleculeComponents)) :
    ∀ (seen : List Nat) (r : MatchResult),
      r ∈ (tier3Inner env qc ms bucket seen).1 →
      r.match_type = strOf "groupe_generique" ∨
        (r.match_type = strOf "fuzzy_molecule" ∧ r.score ≤ 85) := by
  induction bucket with
  | nil =>
      intro seen r h
      simp [tier3Inner] at h
  | cons pt rest ih =>
      intro seen r h
      obtain ⟨p, tc⟩ := pt
      rw [tier3Inner] at h
      by_cases hs : seen.contains p.id
      · rw [if_pos hs] at h
        exact ih seen r h
      · rw [if_neg hs] at h
        by_cases hgg : (natTruthy p.groupe_generique_id
            && decide ((95:ℚ) ≤ ms)) = true
        · simp only [hgg, if_true] at h
          by_cases hfin : (60:ℚ) ≤
              min 100 (calculate_component_score env.sc qc tc * (105/100))
          · rw [if_pos hfin] at h
            rcases List.mem_cons.mp h with hre | hre
            · subst hre
              exact Or.inl rfl
            · exact ih _ r hre
          · rw [if_neg hfin] at h
            exact ih _ r h
        · simp only [hgg, Bool.false_eq_true, if_false] at h
          by_cases hfin : (60:ℚ) ≤
              calculate_component_score env.sc qc tc * (85/100)
          · rw [if_pos hfin] at h
            rcases List.mem_cons.mp h with hre | hre
            · subst hre
              refine Or.inr ⟨rfl, ?_⟩
              show round2 (calculate_component_score env.sc qc tc * (85/100)) ≤ 85
              refine round2_le_85 ?_
              have := ccs_le_100 env.sc hb qc tc
              linarith
            · exact ih _ r hre
          · rw [if_neg hfin] at h
            exact ih _ r h

/-- Propagation of the tier-3 classification through the outer loop. -/
lemma tier3Outer_types (env : MatchEnv) (hb : ScorerBounds env.sc)
    (qc : MoleculeComponents)
    (idx : List (Str × List (CatalogueProduit × MoleculeComponents)))
    (fm : List (Str × ℚ × Nat)) :
    ∀ (seen : List Nat) (r : MatchResult),
      r ∈ tier3Outer env qc idx fm seen →
      r.match_type = strOf "groupe_generique" ∨
        (r.match_type = strOf "fuzzy_molecule" ∧ r.score ≤ 85) := by
  induction fm with
  | nil =>
      intro seen r h
      simp [tier3Outer] at h
  | cons t rest ih =>
      intro seen r h
      obtain ⟨mol, ms, i⟩ := t
      rw [tier3Outer] at h
      rcases List.mem_append.mp h with h | h
      · exact tier3Inner_types env hb qc ms _ _ r h
      · exact ih _ r h

/-- Tier-3 classification at the tier level. -/
lemma tier3_mem (env : MatchEnv) (hb : ScorerBounds env.sc)
    (designation : Str) (lab : Option Nat) (r : MatchResult)
    (h : r ∈ tier3Results env designation lab) :
    r.match_type = strOf "groupe_generique" ∨
      (r.match_type = strOf "fuzzy_molecule" ∧ r.score ≤ 85) := by
  simp only [tier3Results] at h
  split at h
  · exact tier3Outer_types env hb _ _ _ _ r h
  · simp at h

/-- C7 amended: the tier-3 component score is the 50/30/20 weighted
combination (weights renormalized over the present components; with all three
present the normalization is the identity), and every tier-3 result of type
fuzzy_molecule is capped at 85; however tier-3 results whose product carries
a generic-group id and whose molecule similarity is at least 95 are emitted
as type groupe_generique with score `min 100 (1.05 × component score)`,
which may exceed 85. -/
theorem C7_amended (env : MatchEnv) (designation : Str)
    (code_cip : Option Str) (targetLab : Option Nat)
    (hb : ScorerBounds env.sc) :
    (∀ q t : MoleculeComponents,
      (!q.molecule.isEmpty && !t.molecule.isEmpty) = true →
      (strTruthy q.dosage && strTruthy t.dosage) = true →
      (strTruthy q.forme && strTruthy t.forme) = true →
      calculate_component_score env.sc q t =
        env.sc.wratio q.molecule t.molecule * (50/100) +
        (if (lowerStr (q.dosage.getD [])).filter (fun c => c ≠ ' ')
            = (lowerStr (t.dosage.getD [])).filter (fun c => c ≠ ' ')
          then (100:ℚ)
          else env.sc.ratio
            ((lowerStr (q.dosage.getD [])).filter (fun c => c ≠ ' '))
            ((lowerStr (t.dosage.getD [])).filter (fun c => c ≠ ' ')))
          * (30/100) +
        env.sc.partialRatio (q.forme.getD []) (t.forme.getD []) * (20/100)) ∧
    ∀ r ∈ find_matches_for_product env designation code_cip targetLab,
      r.match_type = strOf "fuzzy_molecule" → r.score ≤ 85 := by
  constructor
  · intro q t h1 h2 h3
    unfold calculate_component_score
    rw [if_pos h1, if_pos h2, if_pos h3]
    simp only [List.singleton_append, List.cons_append, List.nil_append,
      List.map_cons, List.map_nil, List.sum_cons, List.sum_nil, add_zero]
    rw [if_neg (List.cons_ne_nil _ _)]
    split_ifs <;> ring_nf
  · intro r hr hty
    simp only [find_matches_for_product] at hr
    split at hr
    · have h1 := tier1_mem env code_cip targetLab r (mem_sortRes.mp hr)
      exact absurd (h1.symm.trans hty) (by decide)
    · split at hr
      · have h2 := (tier2_mem env code_cip targetLab r (mem_sortRes.mp hr)).2
        exact absurd (h2.symm.trans hty) (by decide)
      · have hr2 := mem_sortRes.mp hr
        split at hr2
        · have h4 := tier4_mem env designation targetLab r hr2
          exact absurd (h4.symm.trans hty) (by decide)
        · rcases tier3_mem env hb designation targetLab r hr2 with hgg | hfm
          · exact absurd (hgg.symm.trans hty) (by decide)
          · exact hfm.2

/-- Witness for C7_amended: the weighted 50/30/20 combination instantiated
at concrete components with all three parts present, under the all-zero
scorer family. -/
theorem C7_amended_witness :
    calculate_component_score envC2.sc
      { molecule := strOf "AMLODIPINE", dosage := some (strOf "5mg"),
        forme := some (strOf "comprime") }
      { molecule := strOf "AMLODIPINE", dosage := some (strOf "5MG"),
        forme := some (strOf "comprime") } =
      envC2.sc.wratio (strOf "AMLODIPINE") (strOf "AMLODIPINE") * (50/100) +
      (if (lowerStr ((some (strOf "5mg")).getD [])).filter (fun c => c ≠ ' ')
          = (lowerStr ((some (strOf "5MG")).getD [])).filter (fun c => c ≠ ' ')
        then (100:ℚ)
        else envC2.sc.ratio
          ((lowerStr ((some (strOf "5mg")).getD [])).filter (fun c => c ≠ ' '))
          ((lowerStr ((some (strOf "5MG")).getD [])).filter
            (fun c => c ≠ ' ')))
        * (30/100) +
      envC2.sc.partialRatio (strOf "comprime") (strOf "comprime") * (20/100) :=
  (C7_amended envC2 [] none none
    ⟨fun _ _ => ⟨le_refl 0, show (0:ℚ) ≤ 100 by norm_num⟩,
     fun _ _ => ⟨le_refl 0, show (0:ℚ) ≤ 100 by norm_num⟩,
     fun _ _ => ⟨le_refl 0, show (0:ℚ) ≤ 100 by norm_num⟩⟩).1
    { molecule := strOf "AMLODIPINE", dosage := some (strOf "5mg"),
      forme := some (strOf "comprime") }
    { molecule := strOf "AMLODIPINE", dosage := some (strOf "5MG"),
      forme := some (strOf "comprime") }
    (by decide) (by decide) (by decide)

/-- Scorer family for the C7 instance: similarity 100 on identical strings
(as WRatio and partial_ratio return on identical inputs), 0 otherwise. -/
def scorersC7 : Scorers :=
  ⟨fun a b => if a = b then 100 else 0, fun _ _ => 0,
   fun a b => if a = b then 100 else 0⟩

/-- Catalogue product of the C7 instance (member of generic group 7). -/
def prodC7 : CatalogueProduit :=
  { id := 1, laboratoire_id := 1, code_cip := none,
    nom_commercial := some (strOf "AMLODIPINE EG 5mg CPR"),
    groupe_generique_id := some 7, libelle_groupe := none,
    conditionnement := none, prix_fabricant := none, remise_pct := none,
    actif := true }

/-- Match environment of the C7 instance. -/
def envC7 : MatchEnv :=
  { produits := [prodC7], labs := [(1, strOf "EG LABO")], bdpm := [],
    sc := scorersC7 }

/-- Sale-line designation of the C7 instance (no cip, so the cascade reaches
tier 3). -/
def desigC7 : Str := strOf "AMLODIPINE BIOGARAN 5mg CPR"

/-- Components extracted from the C7 designation. -/
def qcC7 : MoleculeComponents :=
  { molecule := strOf "AMLODIPINE", dosage := some (strOf "5mg"),
    forme := some (strOf "comprime"), conditionnement := none,
    princeps := none, raw_text := desigC7 }

/-- Components extracted from the C7 catalogue product. -/
def tcC7 : MoleculeComponents :=
  { molecule := strOf "AMLODIPINE", dosage := some (strOf "5mg"),
    forme := some (strOf "comprime"), conditionnement := none,
    princeps := none, raw_text := strOf "AMLODIPINE EG 5mg CPR" }

/-- Component score of the C7 query/target pair. -/
lemma csC7 : calculate_component_score scorersC7 qcC7 tcC7 = 100 := by
  unfold calculate_component_score qcC7 tcC7
  dsimp only
  simp only [show (!List.isEmpty (strOf "AMLODIPINE")
        && !List.isEmpty (strOf "AMLODIPINE")) = true from by decide,
    show (strTruthy (some (strOf "5mg"))
        && strTruthy (some (strOf "5mg"))) = true from by decide,
    show (strTruthy (some (strOf "comprime"))
        && strTruthy (some (strOf "comprime"))) = true from by decide,
    eq_self_iff_true, if_true,
    List.singleton_append, List.cons_append, List.nil_append]
  rw [if_neg (List.cons_ne_nil _ _)]
  simp only [List.map_cons, List.map_nil, List.sum_cons, List.sum_nil,
    add_zero]
  rw [show scorersC7.wratio (strOf "AMLODIPINE") (strOf "AMLODIPINE")
      = 100 from by decide]
  rw [show scorersC7.partialRatio ((some (strOf "comprime")).getD [])
      ((some (strOf "comprime")).getD []) = 100 from by decide]
  norm_num

/-- Tier-3 evaluation of the C7 instance: one result, type groupe_generique,
score round(min(100, 1.05 * 100)) = 100. -/
lemma tier3C7 : tier3Results envC7 desigC7 none
    = [mkTier3Result envC7 prodC7 (strOf "groupe_generique") (round2 100)] := by
  have e_qc : extract_from_commercial_name desigC7 = qcC7 := by decide
  have e_idx : buildMoleculeIndex envC7 none
      = [(strOf "AMLODIPINE", [(prodC7, tcC7)])] := by decide
  have e_mm : match_molecule scorersC7 (strOf "AMLODIPINE")
      [strOf "AMLODIPINE"] 10 = [(strOf "AMLODIPINE", (100:ℚ), 0)] := by
    unfold match_molecule extractTopModel
    rw [if_neg (by decide)]
    rw [show (List.enum [strOf "AMLODIPINE"]).map
          (fun ic => (ic.2, scorersC7.wratio (strOf "AMLODIPINE") ic.2, ic.1))
        = [(strOf "AMLODIPINE", (100:ℚ), 0)] from by decide]
    simp only [List.filter_cons, List.filter_nil]
    rw [show decide ((60:ℚ) ≤ (100:ℚ)) = true from by decide]
    rw [if_pos rfl, mergeSort_single]
    rfl
  unfold tier3Results
  simp only [e_qc, e_idx]
  rw [if_pos (by decide)]
  rw [show envC7.sc = scorersC7 from rfl]
  rw [show qcC7.molecule = strOf "AMLODIPINE" from rfl]
  rw [show ([(strOf "AMLODIPINE", [(prodC7, tcC7)])].map (·.1))
      = [strOf "AMLODIPINE"] from rfl]
  rw [e_mm]
  rw [tier3Outer]
  rw [show ((([(strOf "AMLODIPINE", [(prodC7, tcC7)])].find?
      (fun e => e.1 == strOf "AMLODIPINE")).map (·.2)).getD [])
      = [(prodC7, tcC7)] from by decide]
  rw [tier3Inner]
  rw [if_neg (by decide)]
  rw [show (natTruthy prodC7.groupe_generique_id && decide ((95:ℚ) ≤ 100))
      = true from by decide]
  simp only [if_true]
  have cs2 : calculate_component_score envC7.sc qcC7 tcC7 = 100 := csC7
  rw [cs2]
  rw [show min (100:ℚ) (100 * (105/100)) = 100 from by norm_num]
  rw [if_pos (show (60:ℚ) ≤ 100 from by norm_num)]
  rw [tier3Inner, tier3Outer]
  simp

/-- C7 counterexample: with no cip the cascade reaches tier 3, where the
candidate with a generic-group id and molecule similarity 100 is returned
with type groupe_generique and score 100 — a tier-3 result above 85. -/
theorem C7_counterexample :
    tier1Results envC7 none none = [] ∧
    tier2Results envC7 none none = [] ∧
    ∃ r ∈ find_matches_for_product envC7 desigC7 none none,
      r.match_type = strOf "groupe_generique" ∧ r.score = 100 ∧
        ¬ (r.score ≤ 85) := by
  have h1 : tier1Results envC7 none none = [] := by decide
  have h2 : tier2Results envC7 none none = [] := by decide
  have hscore : (mkTier3Result envC7 prodC7 (strOf "groupe_generique")
      (round2 100)).score = 100 := by
    show round2 100 = 100
    exact round2_100
  have hfm : find_matches_for_product envC7 desigC7 none none
      = [mkTier3Result envC7 prodC7 (strOf "groupe_generique") (round2 100)] := by
    unfold find_matches_for_product
    rw [h1, h2, tier3C7]
    simp [sortRes_single]
  refine ⟨h1, h2,
    mkTier3Result envC7 prodC7 (strOf "groupe_generique") (round2 100),
    ?_, rfl, hscore, ?_⟩
  · rw [hfm]
    simp
  · rw [hscore]
    norm_num

/-!
## Allocation optimizer (`optimizer.py`)

The OR-Tools solver is external: the embedding represents a solve by the raw
status the solver reports plus the 0/1 assignment `sol` it returns.
Feasibility and optimality of that assignment are exactly the model
constraints the source builds (`x[v,l]` variables, one-labo-per-vente, and
minimum-objective constraints), stated as propositions.  Database rows
become records; the two dict lookups (`produits_map`, `matching_map`) become
functions; Python sets become `Finset`s.  The `message` and `solver_time_ms`
fields of the result are dropped.
-/

/-- Embeds the `mes_ventes` fields the optimizer reads. -/
structure OptVente where
  id : Nat
  designation : Str := []
  quantite_annuelle : Option Int
  montant_annuel : Option ℚ
  prix_bdpm : Option ℚ
  deriving Repr

/-- Embeds the `catalogue_produits` fields the optimizer reads. -/
structure OptProduit where
  prix_ht : Option ℚ
  remise_pct : Option ℚ
  nom_commercial : Str := []
  deriving Repr

/-- Embeds the `laboratoires` fields the optimizer and the combo heuristic
read. -/
structure OptLabo where
  id : Nat
  nom : Str
  remise_negociee : Option ℚ
  actif : Bool
  deriving Repr

/-- Database snapshot for one import: sale lines, laboratories, the
`vente_matching` map restricted to rows with a product, the product map and
the rule-based exclusions.  `matching vid l = some pid` embeds a
VenteMatching row with non-null `produit_id`. -/
structure OptData where
  ventes : List OptVente
  labos : List OptLabo
  matching : Nat → Nat → Option Nat
  produit : Nat → Option OptProduit
  exclusionsDb : Nat → Nat → Bool

/-- Embeds the `LaboObjective` dataclass (name and computed fields omitted). -/
structure LaboObjective where
  labo_id : Nat
  objectif_pct : Option ℚ := none
  objectif_montant : Option ℚ := none
  exclusions : List Nat := []
  deriving Repr

/-- Embeds `LaboObjective.get_objectif_minimum` (potentiel passed in). -/
def get_objectif_minimum (obj : LaboObjective) (potentiel : ℚ) : ℚ :=
  match obj.objectif_montant with
  | some m => m
  | none =>
      match obj.objectif_pct with
      | some p => if 0 < potentiel then potentiel * p / 100 else 0
      | none => 0

/-- Combined exclusions: the rule-based ones plus those of the objectives. -/
def exclCombined (d : OptData) (objs : List LaboObjective) (l pid : Nat) : Bool :=
  d.exclusionsDb l pid ||
    objs.any (fun o => o.labo_id == l && o.exclusions.contains pid)

/-- Embeds `labos[labo_id].remise_negociee or 0` (the labo row is keyed by
id in the source; a missing row is read as 0 here). -/
def negoOf (d : OptData) (l : Nat) : ℚ :=
  match d.labos.find? (fun lab => lab.id == l) with
  | some lab => lab.remise_negociee.getD 0
  | none => 0

/-- Sale line by id. -/
def venteById (d : OptData) (vid : Nat) : Option OptVente :=
  d.ventes.find? (fun v => v.id == vid)

/-- Product matched to a (vente, labo) pair, when resolvable. -/
def prodOf (d : OptData) (vid l : Nat) : Option OptProduit :=
  (d.matching vid l).bind d.produit

/-- A decision variable `x[v,l]` is created for this pair: positive quantity,
a matching row with a resolvable product, and no exclusion. -/
def keyActive (d : OptData) (objs : List LaboObjective) (vid l : Nat) : Bool :=
  match venteById d vid with
  | none => false
  | some v =>
      decide (0 < v.quantite_annuelle.getD 0) &&
        match d.matching vid l with
        | none => false
        | some pid => (d.produit pid).isSome && !(exclCombined d objs l pid)

/-- The set of sale-line ids. -/
def venteIdsF (d : OptData) : Finset Nat := (d.ventes.map (·.id)).toFinset

/-- The labo ids of the objectives. -/
def laboIdsF (objs : List LaboObjective) : Finset Nat :=
  (objs.map (·.labo_id)).toFinset

/-- All (vente, labo) pairs with a decision variable. -/
def keysF (d : OptData) (objs : List LaboObjective) : Finset (Nat × Nat) :=
  (venteIdsF d ×ˢ laboIdsF objs).filter (fun k => keyActive d objs k.1 k.2)

/-- Embeds `montant = prix * quantite` for a pair. -/
def montantVL (d : OptData) (vid l : Nat) : ℚ :=
  match venteById d vid, prodOf d vid l with
  | some v, some p =>
      p.prix_ht.getD 0 * ((v.quantite_annuelle.getD 0 : Int) : ℚ)
  | _, _ => 0

/-- Embeds `gain_remise = montant * max(remise_ligne, remise_negociee) / 100`,
the objective coefficient of `x[v,l]`. -/
def gain (d : OptData) (vid l : Nat) : ℚ :=
  match venteById d vid, prodOf d vid l with
  | some v, some p =>
      p.prix_ht.getD 0 * ((v.quantite_annuelle.getD 0 : Int) : ℚ) *
        max (p.remise_pct.getD 0) (negoOf d l) / 100
  | _, _ => 0

/-- Keys selected by an assignment. -/
def selectedKeys (d : OptData) (objs : List LaboObjective)
    (sol : Nat → Nat → Bool) : Finset (Nat × Nat) :=
  (keysF d objs).filter (fun k => sol k.1 k.2)

/-- Objective value of an assignment (total rebate gain). -/
def solValue (d : OptData) (objs : List LaboObjective)
    (sol : Nat → Nat → Bool) : ℚ :=
  (selectedKeys d objs sol).sum (fun k => gain d k.1 k.2)

/-- Revenue assigned to one labo by an assignment (`chiffre_labo`). -/
def chiffreLabo (d : OptData) (objs : List LaboObjective)
    (sol : Nat → Nat → Bool) (l : Nat) : ℚ :=
  ((selectedKeys d objs sol).filter (fun k => k.2 = l)).sum
    (fun k => montantVL d k.1 k.2)

/-- Embeds `calculate_potentiels` for one labo: total reachable revenue over
the pairs that have a decision variable. -/
def potentiel (d : OptData) (objs : List LaboObjective) (l : Nat) : ℚ :=
  ((keysF d objs).filter (fun k => k.2 = l)).sum (fun k => montantVL d k.1 k.2)

/-- The assignment satisfies the constraints the source adds to the model:
at most one labo per vente, and each positive minimum objective reached. -/
def Feasible (d : OptData) (objs : List LaboObjective)
    (sol : Nat → Nat → Bool) : Prop :=
  (∀ v ∈ d.ventes,
    ((keysF d objs).filter (fun k => k.1 = v.id ∧ sol k.1 k.2)).card ≤ 1) ∧
  (∀ obj ∈ objs,
    0 < get_objectif_minimum obj (potentiel d objs obj.labo_id) →
      get_objectif_minimum obj (potentiel d objs obj.labo_id) ≤
        chiffreLabo d objs sol obj.labo_id)

/-- The assignment is feasible and maximizes the objective among feasible
assignments — the contract of an OPTIMAL solver return. -/
def OptimalSol (d : OptData) (objs : List LaboObjective)
    (sol : Nat → Nat → Bool) : Prop :=
  Feasible d objs sol ∧
    ∀ sol2, Feasible d objs sol2 →
      solValue d objs sol2 ≤ solValue d objs sol

/-- Raw solver status (`pywraplp.Solver.*`); `abnormal` stands for any other
code, mapped to "UNKNOWN" by the `status_names.get` fallback. -/
inductive RawStatus
  | optimal
  | feasible
  | infeasible
  | unbounded
  | notSolved
  | abnormal
  deriving Repr, DecidableEq

/-- Embeds the `status_names` dict with its "UNKNOWN" fallback. -/
def statusName : RawStatus → Str
  | .optimal => strOf "OPTIMAL"
  | .feasible => strOf "FEASIBLE"
  | .infeasible => strOf "INFEASIBLE"
  | .unbounded => strOf "UNBOUNDED"
  | .notSolved => strOf "NOT_SOLVED"
  | .abnormal => strOf "UNKNOWN"

/-- Per-labo repartition entry of the result. -/
structure LaboRepartition where
  labo_id : Nat
  venteIds : Finset Nat
  chiffre_ht : ℚ
  remise_totale : ℚ
  nb_produits : Nat
  objectif_atteint : Bool
  objectif_minimum : ℚ
  potentiel_ht : ℚ
  deriving DecidableEq

/-- Embeds the `OptimizationResult` dataclass. -/
structure OptimizationResult where
  success : Bool
  repartition : List LaboRepartition
  chiffre_total_ht : ℚ
  remise_totale : ℚ
  couverture_pct : ℚ
  status : Str
  deriving DecidableEq

/-- Embeds `round(x, 1)`. -/
def round1 (q : ℚ) : ℚ := (bankersRound (q * 10) : ℚ) / 10

/-- Embeds `optimize_multi_labo` given the solver's raw status and returned
assignment: early NO_DATA return, failure return for a status outside
OPTIMAL/FEASIBLE (empty repartition, zero totals), and otherwise the
extraction of the selected variables. -/
def optimize_multi_labo (d : OptData) (objectives : List LaboObjective)
    (raw : RawStatus) (sol : Nat → Nat → Bool) : OptimizationResult :=
  if d.ventes.isEmpty then
    { success := false, repartition := [], chiffre_total_ht := 0,
      remise_totale := 0, couverture_pct := 0, status := strOf "NO_DATA" }
  else if raw ≠ RawStatus.optimal ∧ raw ≠ RawStatus.feasible then
    { success := false, repartition := [], chiffre_total_ht := 0,
      remise_totale := 0, couverture_pct := 0, status := statusName raw }
  else
    let sel := selectedKeys d objectives sol
    let repartition := objectives.map (fun obj =>
      let selL := sel.filter (fun k => k.2 = obj.labo_id)
      let chiffre := selL.sum (fun k => montantVL d k.1 k.2)
      let minO := get_objectif_minimum obj (potentiel d objectives obj.labo_id)
      { labo_id := obj.labo_id,
        venteIds := selL.image (fun k => k.1),
        chiffre_ht := chiffre,
        remise_totale := selL.sum (fun k => gain d k.1 k.2),
        nb_produits := selL.card,
        objectif_atteint := decide (minO ≤ chiffre),
        objectif_minimum := minO,
        potentiel_ht := potentiel d objectives obj.labo_id })
    let chiffre_total := sel.sum (fun k => montantVL d k.1 k.2)
    let chiffre_bdpm := (d.ventes.map (fun v =>
      v.prix_bdpm.getD 0 * ((v.quantite_annuelle.getD 0 : Int) : ℚ))).sum
    { success := true, repartition := repartition,
      chiffre_total_ht := chiffre_total,
      remise_totale := solValue d objectives sol,
      couverture_pct :=
        if 0 < chiffre_bdpm then round2 (chiffre_total / chiffre_bdpm * 100)
        else 0,
      status := statusName raw }

/-!
## Greedy combo heuristic (`combo_optimizer.py`)
-/

/-- Embeds the `LaboCoverage` dataclass. -/
structure LaboCoverage where
  labo_id : Nat
  labo_nom : Str
  remise_negociee : ℚ
  ventes_couvertes : Finset Nat
  montant_couvert : ℚ
  nb_produits : Nat
  deriving DecidableEq

/-- Embeds the `ComboResult` dataclass. -/
structure ComboResult where
  labos : List LaboCoverage
  couverture_totale_pct : ℚ
  chiffre_total_realise : ℚ
  montant_remise_total : ℚ
  ventes_non_couvertes : Finset Nat
  deriving DecidableEq

/-- Embeds `ComboOptimizer.calculate_lab_coverage`: matched ventes among the
given ids and their annual-amount total. -/
def calculate_lab_coverage (d : OptData) (laboId : Nat)
    (venteIds : Finset Nat) : LaboCoverage :=
  match d.labos.find? (fun lab => lab.id == laboId) with
  | none =>
      { labo_id := laboId, labo_nom := strOf "?", remise_negociee := 0,
        ventes_couvertes := ∅, montant_couvert := 0, nb_produits := 0 }
  | some lab =>
      let cov := venteIds.filter (fun vid => (d.matching vid laboId).isSome)
      let mont := cov.sum (fun vid =>
        match venteById d vid with
        | some v => v.montant_annuel.getD 0
        | none => 0)
      { labo_id := laboId, labo_nom := lab.nom,
        remise_negociee := lab.remise_negociee.getD 0,
        ventes_couvertes := cov, montant_couvert := mont,
        nb_produits := cov.card }

/-- Embeds `ComboOptimizer.estimate_remise`. -/
def estimate_remise (cov : LaboCoverage) : ℚ :=
  if cov.montant_couvert ≤ 0 then 0
  else cov.montant_couvert * cov.remise_negociee / 100

/-- One pass over the candidate labos, keeping the strictly best additional
rebate (the inner `for labo in other_labos` loop). -/
def greedyPick (d : OptData) (restantes : Finset Nat)
    (cands : List OptLabo) : Option LaboCoverage × ℚ :=
  cands.foldl (fun best lab =>
    let cov := calculate_lab_coverage d lab.id restantes
    if cov.ventes_couvertes = ∅ then best
    else
      let rem := estimate_remise cov
      if best.2 < rem then (some cov, rem) else best) (none, 0)

/-- Embeds the greedy loop (`for _ in range(max_labos_combo - 1)`); the
candidate set (active, not the principal, not yet selected) is recomputed
each round, which agrees with the source's one-time query plus the
in-loop `already selected` skip. -/
def greedyLoop (d : OptData) (principal : Nat) :
    Nat → List LaboCoverage → Finset Nat → ℚ →
      List LaboCoverage × Finset Nat × ℚ
  | 0, selected, covered, total => (selected, covered, total)
  | fuel + 1, selected, covered, total =>
      let restantes := venteIdsF d \ covered
      if restantes = ∅ then (selected, covered, total)
      else
        let cands := d.labos.filter (fun lab =>
          lab.id != principal && lab.actif &&
            !(selected.any (fun l => l.labo_id == lab.id)))
        match greedyPick d restantes cands with
        | (some cov, rem) =>
            if 0 < rem then
              greedyLoop d principal fuel (selected ++ [cov])
                (covered ∪ cov.ventes_couvertes) (total + rem)
            else (selected, covered, total)
        | (none, _) => (selected, covered, total)

/-- Embeds `ComboOptimizer.find_best_combo_greedy`. -/
def find_best_combo_greedy (d : OptData) (principal : Nat)
    (maxLabos : Nat) : ComboResult :=
  if d.ventes.isEmpty then
    { labos := [], couverture_totale_pct := 0, chiffre_total_realise := 0,
      montant_remise_total := 0, ventes_non_couvertes := ∅ }
  else
    let cov0 := calculate_lab_coverage d principal (venteIdsF d)
    let st := greedyLoop d principal (maxLabos - 1) [cov0]
      cov0.ventes_couvertes (estimate_remise cov0)
    let chiffre_realise := st.2.1.sum (fun vid =>
      match venteById d vid with
      | some v => v.montant_annuel.getD 0
      | none => 0)
    let chiffre_total := (d.ventes.map (fun v => v.montant_annuel.getD 0)).sum
    { labos := st.1,
      couverture_totale_pct :=
        if 0 < chiffre_total then round1 (chiffre_realise / chiffre_total * 100)
        else 0,
      chiffre_total_realise := chiffre_realise,
      montant_remise_total := st.2.2,
      ventes_non_couvertes := venteIdsF d \ st.2.1 }

/-!
## Theorems on the optimizer (C1, C3)
-/

/-- C1: under the one-labo-per-vente constraint the source adds for every
vente, the extracted repartition never lists a sale line under two different
labos, and lists it under a labo only when that pair's variable exists and is
selected. -/
theorem C1_at_most_one_labo (d : OptData) (objs : List LaboObjective)
    (raw : RawStatus) (sol : Nat → Nat → Bool)
    (hfeas : Feasible d objs sol) :
    (∀ (vid : Nat) (r1 r2 : LaboRepartition),
      r1 ∈ (optimize_multi_labo d objs raw sol).repartition →
      r2 ∈ (optimize_multi_labo d objs raw sol).repartition →
      vid ∈ r1.venteIds → vid ∈ r2.venteIds → r1.labo_id = r2.labo_id) ∧
    (∀ (vid : Nat) (r : LaboRepartition),
      r ∈ (optimize_multi_labo d objs raw sol).repartition →
      vid ∈ r.venteIds →
      sol vid r.labo_id = true ∧ (vid, r.labo_id) ∈ keysF d objs) := by
  have hmem : ∀ (vid : Nat) (r : LaboRepartition),
      r ∈ (optimize_multi_labo d objs raw sol).repartition →
      vid ∈ r.venteIds →
      (vid, r.labo_id) ∈ keysF d objs ∧ sol vid r.labo_id = true := by
    intro vid r hr hv
    unfold optimize_multi_labo at hr
    split at hr
    · simp at hr
    · split at hr
      · simp at hr
      · rcases List.mem_map.mp hr with ⟨obj, _, hobj⟩
        subst hobj
        simp only [] at hv
        rcases Finset.mem_image.mp hv with ⟨k, hk, hk1⟩
        have hk2 := Finset.mem_filter.mp hk
        have hk3 := Finset.mem_filter.mp hk2.1
        have hlab : k.2 = obj.labo_id := hk2.2
        have : k = (vid, obj.labo_id) := by
          cases k
          simp only at hk1 hlab
          rw [hk1, hlab]
        rw [this] at hk3
        exact ⟨hk3.1, by simpa using hk3.2⟩
  constructor
  · intro vid r1 r2 hr1 hr2 hv1 hv2
    have h1 := hmem vid r1 hr1 hv1
    have h2 := hmem vid r2 hr2 hv2
    -- both pairs lie in the per-vente constraint set of vid
    have hvid : ∃ v ∈ d.ventes, v.id = vid := by
      have := Finset.mem_filter.mp h1.1
      have hprod := Finset.mem_product.mp this.1
      have := hprod.1
      simp only [venteIdsF, List.mem_toFinset, List.mem_map] at this
      rcases this with ⟨v, hv, hvi⟩
      exact ⟨v, hv, hvi⟩
    rcases hvid with ⟨v, hv, hvi⟩
    have hcard := hfeas.1 v hv
    have hm1 : (vid, r1.labo_id) ∈
        (keysF d objs).filter (fun k => k.1 = v.id ∧ sol k.1 k.2) := by
      refine Finset.mem_filter.mpr ⟨h1.1, ?_, ?_⟩
      · exact hvi.symm
      · exact h1.2
    have hm2 : (vid, r2.labo_id) ∈
        (keysF d objs).filter (fun k => k.1 = v.id ∧ sol k.1 k.2) := by
      refine Finset.mem_filter.mpr ⟨h2.1, ?_, ?_⟩
      · exact hvi.symm
      · exact h2.2
    have := Finset.card_le_one.mp hcard _ hm1 _ hm2
    exact congrArg Prod.snd this
  · intro vid r hr hv
    exact ⟨(hmem vid r hr hv).2, (hmem vid r hr hv).1⟩

/-- Concrete optimizer instance: one sale line matched at two labos. -/
def d1 : OptData :=
  { ventes := [{ id := 1, designation := [], quantite_annuelle := some 1,
                 montant_annuel := some 10, prix_bdpm := some 10 }],
    labos := [{ id := 1, nom := strOf "LABO1", remise_negociee := some 10,
                actif := true },
              { id := 2, nom := strOf "LABO2", remise_negociee := some 5,
                actif := true }],
    matching := fun vid l => if vid = 1 && (l = 1 || l = 2) then some 1 else none,
    produit := fun pid =>
      if pid = 1 then some { prix_ht := some 1, remise_pct := some 0 } else none,
    exclusionsDb := fun _ _ => false }

/-- Zero objectives for both labos of `d1`. -/
def objs1 : List LaboObjective := [{ labo_id := 1 }, { labo_id := 2 }]

/-- Assignment selecting the line at labo 1. -/
def sol1 : Nat → Nat → Bool := fun vid l => vid == 1 && l == 1

/-- Witness for C1 at the concrete instance `d1`. -/
theorem C1_witness :
    (∀ (vid : Nat) (r1 r2 : LaboRepartition),
      r1 ∈ (optimize_multi_labo d1 objs1 RawStatus.optimal sol1).repartition →
      r2 ∈ (optimize_multi_labo d1 objs1 RawStatus.optimal sol1).repartition →
      vid ∈ r1.venteIds → vid ∈ r2.venteIds → r1.labo_id = r2.labo_id) ∧
    (∀ (vid : Nat) (r : LaboRepartition),
      r ∈ (optimize_multi_labo d1 objs1 RawStatus.optimal sol1).repartition →
      vid ∈ r.venteIds →
      sol1 vid r.labo_id = true ∧ (vid, r.labo_id) ∈ keysF d1 objs1) :=
  C1_at_most_one_labo d1 objs1 RawStatus.optimal sol1 (by unfold Feasible; decide)

/-- C3 amended: when the solve ends outside OPTIMAL/FEASIBLE on a non-empty
import, the result carries no allocation at all (empty repartition, zero
revenue and rebate) and an explanatory status drawn from
INFEASIBLE / UNBOUNDED / NOT_SOLVED / UNKNOWN — the exhausted time limit
surfaces as NOT_SOLVED, and no TIMEOUT status exists. -/
theorem C3_amended (d : OptData) (objs : List LaboObjective) (raw : RawStatus)
    (sol : Nat → Nat → Bool) (hne : d.ventes ≠ [])
    (hraw : raw ≠ RawStatus.optimal ∧ raw ≠ RawStatus.feasible) :
    (optimize_multi_labo d objs raw sol).success = false ∧
    (optimize_multi_labo d objs raw sol).repartition = [] ∧
    (optimize_multi_labo d objs raw sol).chiffre_total_ht = 0 ∧
    (optimize_multi_labo d objs raw sol).remise_totale = 0 ∧
    (optimize_multi_labo d objs raw sol).status = statusName raw ∧
    ((optimize_multi_labo d objs raw sol).status = strOf "INFEASIBLE" ∨
     (optimize_multi_labo d objs raw sol).status = strOf "UNBOUNDED" ∨
     (optimize_multi_labo d objs raw sol).status = strOf "NOT_SOLVED" ∨
     (optimize_multi_labo d objs raw sol).status = strOf "UNKNOWN") := by
  have hE : d.ventes.isEmpty = false := by
    cases hc : d.ventes with
    | nil => exact absurd hc hne
    | cons a l => rfl
  unfold optimize_multi_labo
  rw [if_neg (by simp [hE]), if_pos hraw]
  refine ⟨rfl, rfl, rfl, rfl, rfl, ?_⟩
  cases raw with
  | optimal => exact absurd rfl hraw.1
  | feasible => exact absurd rfl hraw.2
  | infeasible => exact Or.inl rfl
  | unbounded => exact Or.inr (Or.inl rfl)
  | notSolved => exact Or.inr (Or.inr (Or.inl rfl))
  | abnormal => exact Or.inr (Or.inr (Or.inr rfl))

/-- Witness for C3_amended at the concrete instance `d1` with an INFEASIBLE
solve. -/
theorem C3_amended_witness :
    (optimize_multi_labo d1 objs1 RawStatus.infeasible sol1).success = false ∧
    (optimize_multi_labo d1 objs1 RawStatus.infeasible sol1).repartition = [] ∧
    (optimize_multi_labo d1 objs1 RawStatus.infeasible sol1).chiffre_total_ht = 0 ∧
    (optimize_multi_labo d1 objs1 RawStatus.infeasible sol1).remise_totale = 0 ∧
    (optimize_multi_labo d1 objs1 RawStatus.infeasible sol1).status =
      statusName RawStatus.infeasible ∧
    ((optimize_multi_labo d1 objs1 RawStatus.infeasible sol1).status =
        strOf "INFEASIBLE" ∨
     (optimize_multi_labo d1 objs1 RawStatus.infeasible sol1).status =
        strOf "UNBOUNDED" ∨
     (optimize_multi_labo d1 objs1 RawStatus.infeasible sol1).status =
        strOf "NOT_SOLVED" ∨
     (optimize_multi_labo d1 objs1 RawStatus.infeasible sol1).status =
        strOf "UNKNOWN") :=
  C3_amended d1 objs1 RawStatus.infeasible sol1 (List.cons_ne_nil _ _)
    ⟨by decide, by decide⟩

/-- C3 counterexample: a solve stopped by the time limit reports NOT_SOLVED
(via `status_names`), which is outside the claimed status set
{OPTIMAL, FEASIBLE, INFEASIBLE, UNBOUNDED, TIMEOUT}; the result still carries
no allocation. -/
theorem C3_counterexample :
    (optimize_multi_labo d1 objs1 RawStatus.notSolved sol1).status =
      strOf "NOT_SOLVED" ∧
    (optimize_multi_labo d1 objs1 RawStatus.notSolved sol1).repartition = [] ∧
    (optimize_multi_labo d1 objs1 RawStatus.notSolved sol1).remise_totale = 0 ∧
    ¬ ((optimize_multi_labo d1 objs1 RawStatus.notSolved sol1).status =
          strOf "OPTIMAL" ∨
       (optimize_multi_labo d1 objs1 RawStatus.notSolved sol1).status =
          strOf "FEASIBLE" ∨
       (optimize_multi_labo d1 objs1 RawStatus.notSolved sol1).status =
          strOf "INFEASIBLE" ∨
       (optimize_multi_labo d1 objs1 RawStatus.notSolved sol1).status =
          strOf "UNBOUNDED" ∨
       (optimize_multi_labo d1 objs1 RawStatus.notSolved sol1).status =
          strOf "TIMEOUT") := by
  decide

/-!
## Batch matcher (`batch_matching.py` with `pharma_preprocessing.py`)

`fuzz.token_set_ratio` (the `process.cdist` scorer) is external and embedded
as an abstract function; `preprocess_pharma` is embedded concretely.  The
`LABOS_CONNUS` of this module is a Python set, whose iteration order is
unspecified; it is embedded in the source's literal order (the removals are
independent word-boundary deletions).
-/

/-- Generic single-pass embedding of `re.sub`: scan left to right carrying
the previous original character; on a match emit the replacement and resume
after the match. -/
def subGo (matchAt : Option Char → Str → Option (Str × Str × Option Char)) :
    Nat → Str → Option Char → Str
  | 0, cs, _ => cs
  | _ + 1, [], _ => []
  | fuel + 1, c :: rest, prev =>
      match matchAt prev (c :: rest) with
      | some (repl, rem, lastc) => repl ++ subGo matchAt fuel rem lastc
      | none => c :: subGo matchAt fuel rest (some c)

/-- One `re.sub` pass over a text. -/
def subAll (matchAt : Option Char → Str → Option (Str × Str × Option Char))
    (text : Str) : Str :=
  subGo matchAt text.length text none

/-- Left word-boundary test against the previous character. -/
def boundaryOk : Option Char → Bool
  | some p => !isWordChar p
  | none => true

/-- Right word-boundary test against the rest of the text. -/
def boundaryOkAfter : Str → Bool
  | [] => true
  | c :: _ => !isWordChar c

/-- Matcher for `\bPAT\b` with a literal pattern, replaced by `repl`. -/
def wbMatchAt (pat repl : Str) (prev : Option Char) (cs : Str) :
    Option (Str × Str × Option Char) :=
  if boundaryOk prev && !pat.isEmpty && pat.isPrefixOf cs
      && boundaryOkAfter (cs.drop pat.length) then
    some (repl, cs.drop pat.length, pat.getLast?)
  else none

/-- Lab names removed by `preprocess_pharma` (source literal order; the
Python set's iteration order is unspecified but these word-boundary
deletions are order-independent). -/
def PREPROC_LABOS : List Str :=
  [strOf "viatris", strOf "zentiva", strOf "biogaran", strOf "sandoz",
   strOf "teva", strOf "mylan", strOf "arrow", strOf "eg", strOf "cristers",
   strOf "accord", strOf "ranbaxy", strOf "zydus", strOf "sun",
   strOf "almus", strOf "bgr", strOf "ratiopharm", strOf "actavis",
   strOf "winthrop", strOf "pfizer", strOf "sanofi", strOf "bayer"]

/-- Form expansions of `preprocess_pharma` (dict insertion order). -/
def PREPROC_FORMES : List (Str × Str) :=
  [(strOf "cpr", strOf "comprime"), (strOf "cp", strOf "comprime"),
   (strOf "comp", strOf "comprime"), (strOf "gel", strOf "gelule"),
   (strOf "caps", strOf "capsule"), (strOf "sol", strOf "solution"),
   (strOf "susp", strOf "suspension"), (strOf "inj", strOf "injectable"),
   (strOf "cr", strOf "creme"), (strOf "pom", strOf "pommade"),
   (strOf "suppo", strOf "suppositoire"), (strOf "pdre", strOf "poudre")]

/-- Unit alternatives of the dosage-join pattern `(\d+)\s*(MG|G|ML|MCG|UI)`. -/
def preprocUnits : List Str :=
  [strOf "MG", strOf "G", strOf "ML", strOf "MCG", strOf "UI"]

/-- Matcher for the dosage-join pattern, replacing by `\1\2`. -/
def dosageJoinAt (_prev : Option Char) (cs : Str) :
    Option (Str × Str × Option Char) :=
  let ds := cs.takeWhile Char.isDigit
  if ds = [] then none
  else
    let r1 := cs.drop ds.length
    let sp := (r1.takeWhile isWs).length
    let r2 := r1.drop sp
    match preprocUnits.findSome?
        (fun u => if u.isPrefixOf r2 then some u else none) with
    | some u => some (ds ++ u, r2.drop u.length, u.getLast?)
    | none => none

/-- Matcher for the packaging pattern `\bB/?(\d+)\b`, removed. -/
def packBAt (prev : Option Char) (cs : Str) :
    Option (Str × Str × Option Char) :=
  if boundaryOk prev then
    match cs with
    | 'B' :: r1 =>
        let r2 := match r1 with
          | '/' :: r => r
          | _ => r1
        let ds := r2.takeWhile Char.isDigit
        if ds = [] then none
        else
          let rem := r2.drop ds.length
          if boundaryOkAfter rem then some ([], rem, ds.getLast?) else none
    | _ => none
  else none

/-- Box-word alternatives of `\b(BTE|BOITE|PLQ)\s*\d+\b`. -/
def packWords : List Str := [strOf "BTE", strOf "BOITE", strOf "PLQ"]

/-- Matcher for the packaging pattern `\b(BTE|BOITE|PLQ)\s*\d+\b`, removed. -/
def packWordAt (prev : Option Char) (cs : Str) :
    Option (Str × Str × Option Char) :=
  if boundaryOk prev then
    packWords.findSome? (fun w =>
      if w.isPrefixOf cs then
        let r1 := cs.drop w.length
        let sp := (r1.takeWhile isWs).length
        let r2 := r1.drop sp
        let ds := r2.takeWhile Char.isDigit
        if ds = [] then none
        else
          let rem := r2.drop ds.length
          if boundaryOkAfter rem then some ([], rem, ds.getLast?) else none
      else none)
  else none

/-- Embeds `preprocess_pharma`. -/
def preprocess_pharma (text : Str) : Str :=
  if text = [] then []
  else
    let r0 := upperStr text
    let r1 := PREPROC_LABOS.foldl
      (fun acc labo => subAll (wbMatchAt (upperStr labo) []) acc) r0
    let r2 := PREPROC_FORMES.foldl
      (fun acc ab => subAll (wbMatchAt (upperStr ab.1) (upperStr ab.2)) acc) r1
    let r3 := subAll dosageJoinAt r2
    let r4 := subAll packBAt r3
    let r5 := subAll packWordAt r4
    trimStr (collapseWs r5)

/-- Embeds a `ventes` record of `batch_match_products` (dict with optional
keys). -/
structure VenteRec where
  cip13 : Option Str
  designation : Option Str
  deriving Repr, DecidableEq

/-- Embeds a `bdpm` record of `batch_match_products`. -/
structure BdpmRec where
  cip13 : Option Str
  denomination : Option Str
  pfht : Option ℚ
  deriving Repr, DecidableEq

/-- Embeds one result dict of `batch_match_products`. -/
structure BatchMatchRow where
  source_cip13 : Option Str
  source_designation : Str
  matched_cip13 : Option Str
  matched_denomination : Option Str
  match_score : ℚ
  match_type : Str
  pfht : Option ℚ
  deriving Repr, DecidableEq

/-- Embeds `np.argmax` over a row plus the best score: first index attaining
the maximum (strict improvement only). -/
def argmaxGo : List ℚ → Nat → Nat × ℚ → Nat × ℚ
  | [], _, best => best
  | x :: xs, i, best => argmaxGo xs (i + 1) (if best.2 < x then (i, x) else best)

/-- First maximum of a non-empty list of scores (index, value). -/
def argmaxIdx : List ℚ → Nat × ℚ
  | [] => (0, 0)
  | x :: xs => argmaxGo xs 1 (0, x)

/-- Embeds `batch_match_products` with the cdist scorer `f` (modelling
`fuzz.token_set_ratio`, applied row by row). -/
def batch_match_products (f : Str → Str → ℚ) (ventes : List VenteRec)
    (bdpm : List BdpmRec) (score_threshold : ℚ) : List BatchMatchRow :=
  if ventes.isEmpty || bdpm.isEmpty then []
  else
    let bdpm_names := bdpm.map (fun b => preprocess_pharma (b.denomination.getD []))
    ventes.map (fun v =>
      let row := bdpm_names.map (f (preprocess_pharma (v.designation.getD [])))
      let best := argmaxIdx row
      if score_threshold ≤ best.2 then
        { source_cip13 := v.cip13,
          source_designation := v.designation.getD [],
          matched_cip13 :=
            match bdpm[best.1]? with
            | some b => b.cip13
            | none => none,
          matched_denomination :=
            match bdpm[best.1]? with
            | some b => b.denomination
            | none => none,
          match_score := best.2, match_type := strOf "fuzzy",
          pfht :=
            match bdpm[best.1]? with
            | some b => b.pfht
            | none => none }
      else
        { source_cip13 := v.cip13,
          source_designation := v.designation.getD [],
          matched_cip13 := none, matched_denomination := none,
          match_score := best.2, match_type := strOf "no_match",
          pfht := none })

/-- Default of the `score_threshold` parameter of `batch_match_products`. -/
def batch_match_default_threshold : ℚ := 70

/-- Scores of the row for one sale line (statement abbreviation). -/
def batchRowScores (f : Str → Str → ℚ) (bdpm : List BdpmRec)
    (v : VenteRec) : List ℚ :=
  (bdpm.map (fun b => preprocess_pharma (b.denomination.getD []))).map
    (f (preprocess_pharma (v.designation.getD [])))

/-- The embedded `preprocess_pharma` reproduces the first docstring example
of the source. -/
lemma preprocess_pharma_example1 :
    preprocess_pharma (strOf "AMLODIPINE BIOGARAN 5MG CPR B/30")
      = strOf "AMLODIPINE 5MG COMPRIME" := by decide

/-- The embedded `preprocess_pharma` reproduces the second docstring example
of the source. -/
lemma preprocess_pharma_example2 :
    preprocess_pharma (strOf "METFORMINE SANDOZ 1000 MG BTE 30")
      = strOf "METFORMINE 1000MG" := by decide

lemma argmaxGo_ge (xs : List ℚ) :
    ∀ (i : Nat) (best : Nat × ℚ), best.2 ≤ (argmaxGo xs i best).2 := by
  induction xs with
  | nil => intro i best; exact le_refl _
  | cons x t ih =>
      intro i best
      rw [argmaxGo]
      refine le_trans ?_ (ih (i + 1) _)
      by_cases h : best.2 < x
      · rw [if_pos h]
        exact le_of_lt h
      · rw [if_neg h]

lemma argmaxGo_le (xs : List ℚ) :
    ∀ (i : Nat) (best : Nat × ℚ) (j : Nat) (hj : j < xs.length),
      xs.get ⟨j, hj⟩ ≤ (argmaxGo xs i best).2 := by
  induction xs with
  | nil => intro i best j hj; exact absurd hj (Nat.not_lt_zero j)
  | cons x t ih =>
      intro i best j hj
      rw [argmaxGo]
      cases j with
      | zero =>
          refine le_trans ?_ (argmaxGo_ge t (i + 1) _)
          by_cases h : best.2 < x
          · rw [if_pos h]
            exact le_refl _
          · rw [if_neg h]
            exact le_of_not_lt h
      | succ j => exact ih (i + 1) _ j (Nat.lt_of_succ_lt_succ hj)

lemma argmaxGo_attained (xs : List ℚ) :
    ∀ (i : Nat) (best : Nat × ℚ),
      argmaxGo xs i best = best ∨
      ∃ (j : Nat) (hj : j < xs.length),
        argmaxGo xs i best = (i + j, xs.get ⟨j, hj⟩) := by
  induction xs with
  | nil => intro i best; exact Or.inl rfl
  | cons x t ih =>
      intro i best
      rw [argmaxGo]
      by_cases h : best.2 < x
      · rw [if_pos h]
        rcases ih (i + 1) (i, x) with h2 | ⟨j, hj, h2⟩
        · refine Or.inr ⟨0, Nat.succ_pos _, ?_⟩
          rw [h2]
          simp
        · refine Or.inr ⟨j + 1, Nat.succ_lt_succ hj, ?_⟩
          rw [h2]
          simp only [List.get_cons_succ]
          congr 1
          omega
      · rw [if_neg h]
        rcases ih (i + 1) best with h2 | ⟨j, hj, h2⟩
        · exact Or.inl h2
        · refine Or.inr ⟨j + 1, Nat.succ_lt_succ hj, ?_⟩
          rw [h2]
          simp only [List.get_cons_succ]
          congr 1
          omega

lemma argmaxIdx_le (xs : List ℚ) (j : Nat) (hj : j < xs.length) :
    xs.get ⟨j, hj⟩ ≤ (argmaxIdx xs).2 := by
  cases xs with
  | nil => exact absurd hj (Nat.not_lt_zero j)
  | cons x t =>
      rw [argmaxIdx]
      cases j with
      | zero => exact argmaxGo_ge t 1 (0, x)
      | succ j => exact argmaxGo_le t 1 (0, x) j (Nat.lt_of_succ_lt_succ hj)

lemma argmaxIdx_attained (xs : List ℚ) (h : xs ≠ []) :
    ∃ (hj : (argmaxIdx xs).1 < xs.length),
      xs.get ⟨(argmaxIdx xs).1, hj⟩ = (argmaxIdx xs).2 := by
  cases xs with
  | nil => exact absurd rfl h
  | cons x t =>
      rw [argmaxIdx]
      rcases argmaxGo_attained t 1 (0, x) with h2 | ⟨j, hj, h2⟩
      · rw [h2]
        exact ⟨Nat.succ_pos _, rfl⟩
      · rw [h2]
        have hlt : 1 + j < (x :: t).length := by
          simp only [List.length_cons]
          omega
        refine ⟨hlt, ?_⟩
        simp only [Nat.add_comm 1 j]
        exact rfl

/-- C10: `batch_match_products` returns the empty list when either input is
empty (so no line is reported unmatched against an empty reference), and
otherwise exactly one row per sale line: the row carries the best-scoring
reference entry when that score reaches the threshold, and an explicit
no_match record otherwise. -/
theorem C10_batch_match (f : Str → Str → ℚ) (ventes : List VenteRec)
    (bdpm : List BdpmRec) (th : ℚ) :
    ((ventes = [] ∨ bdpm = []) → batch_match_products f ventes bdpm th = []) ∧
    (ventes ≠ [] → bdpm ≠ [] →
      (batch_match_products f ventes bdpm th).length = ventes.length ∧
      ∀ (i : Nat) (v : VenteRec), ventes[i]? = some v →
        ∃ row, (batch_match_products f ventes bdpm th)[i]? = some row ∧
          row.source_cip13 = v.cip13 ∧
          row.match_score = (argmaxIdx (batchRowScores f bdpm v)).2 ∧
          (∀ (j : Nat) (hj : j < (batchRowScores f bdpm v).length),
            (batchRowScores f bdpm v).get ⟨j, hj⟩ ≤ row.match_score) ∧
          (th ≤ row.match_score →
            row.match_type = strOf "fuzzy" ∧
            ∃ b, bdpm[(argmaxIdx (batchRowScores f bdpm v)).1]? = some b ∧
              row.matched_cip13 = b.cip13 ∧ row.pfht = b.pfht) ∧
          (¬ th ≤ row.match_score →
            row.match_type = strOf "no_match" ∧ row.matched_cip13 = none)) := by
  constructor
  · intro h
    unfold batch_match_products
    rcases h with h | h <;> rw [h] <;> simp
  · intro hv hb
    have hve : ventes.isEmpty = false := by
      cases hc : ventes with
      | nil => exact absurd hc hv
      | cons a l => rfl
    have hbe : bdpm.isEmpty = false := by
      cases hc : bdpm with
      | nil => exact absurd hc hb
      | cons a l => rfl
    have heq : batch_match_products f ventes bdpm th =
        ventes.map (fun v =>
          let row := batchRowScores f bdpm v
          let best := argmaxIdx row
          if th ≤ best.2 then
            { source_cip13 := v.cip13,
              source_designation := v.designation.getD [],
              matched_cip13 :=
                match bdpm[best.1]? with
                | some b => b.cip13
                | none => none,
              matched_denomination :=
                match bdpm[best.1]? with
                | some b => b.denomination
                | none => none,
              match_score := best.2, match_type := strOf "fuzzy",
              pfht :=
                match bdpm[best.1]? with
                | some b => b.pfht
                | none => none }
          else
            { source_cip13 := v.cip13,
              source_designation := v.designation.getD [],
              matched_cip13 := none, matched_denomination := none,
              match_score := best.2, match_type := strOf "no_match",
              pfht := none }) := by
      unfold batch_match_products batchRowScores
      rw [if_neg (by simp [hve, hbe])]
    constructor
    · rw [heq, List.length_map]
    · intro i v hvi
      rw [heq, List.getElem?_map, hvi]
      simp only [Option.map_some]
      refine ⟨_, rfl, ?_⟩
      simp only []
      have hrowlen : (batchRowScores f bdpm v).length = bdpm.length := by
        unfold batchRowScores
        simp
      have hrowne : batchRowScores f bdpm v ≠ [] := by
        intro hcon
        rw [hcon] at hrowlen
        cases hc : bdpm with
        | nil => exact absurd hc hb
        | cons a l =>
            rw [hc] at hrowlen
            simp at hrowlen
      obtain ⟨hjlt, _⟩ := argmaxIdx_attained (batchRowScores f bdpm v) hrowne
      have hblt : (argmaxIdx (batchRowScores f bdpm v)).1 < bdpm.length := by
        rw [← hrowlen]
        exact hjlt
      obtain ⟨b, hbval⟩ : ∃ b,
          bdpm[(argmaxIdx (batchRowScores f bdpm v)).1]? = some b := by
        rw [List.getElem?_eq_getElem hblt]
        exact ⟨_, rfl⟩
      by_cases hth : th ≤ (argmaxIdx (batchRowScores f bdpm v)).2
      · rw [if_pos hth]
        refine ⟨rfl, rfl, ?_, ?_, ?_⟩
        · intro j hj
          exact argmaxIdx_le _ j hj
        · intro _
          refine ⟨rfl, b, hbval, ?_, ?_⟩ <;> rw [hbval]
        · intro hcon
          exact absurd hth hcon
      · rw [if_neg hth]
        refine ⟨rfl, rfl, ?_, ?_, ?_⟩
        · intro j hj
          exact argmaxIdx_le _ j hj
        · intro hcon
          exact absurd hcon hth
        · intro _
          exact ⟨rfl, rfl⟩

/-- Constant scorer used by the C10 witness instance. -/
def fC10 : Str → Str → ℚ := fun _ _ => 80

/-- Sale line of the C10 witness instance. -/
def vC10 : VenteRec :=
  ⟨some (strOf "3400911111111"), some (strOf "PARACETAMOL 500MG")⟩

/-- Reference row of the C10 witness instance. -/
def bC10 : BdpmRec :=
  ⟨some (strOf "3400922222222"), some (strOf "PARACETAMOL 500 MG CPR"), some 1⟩

theorem C10_batch_match_witness :
    (batch_match_products fC10 [vC10] [bC10] 70).length = 1 :=
  ((C10_batch_match fC10 [vC10] [bC10] 70).2
    (List.cons_ne_nil vC10 []) (List.cons_ne_nil bC10 [])).1

/-!
## Theorems on the optimizer against the greedy heuristic (C8)
-/

/-- Data shared by the C8 instances: one sale line (id 1, quantity 1,
declared annual amount `m`), one active labo (id 1, negotiated rebate 10),
one matched product (price 1, line rebate 0), no exclusions. -/
def d8data (m : ℚ) : OptData where
  ventes := [{ id := 1, quantite_annuelle := some 1, montant_annuel := some m,
               prix_bdpm := none }]
  labos := [{ id := 1, nom := strOf "LAB", remise_negociee := some 10,
              actif := true }]
  matching := fun vid l => if vid = 1 ∧ l = 1 then some 1 else none
  produit := fun pid =>
    if pid = 1 then some { prix_ht := some 1, remise_pct := some 0 } else none
  exclusionsDb := fun _ _ => false

/-- The single all-default objective of the C8 instances. -/
def objs8 : List LaboObjective := [{ labo_id := 1 }]

/-- The assignment selecting the single decision variable of the C8
instances. -/
def sol8 : Nat → Nat → Bool := fun vid l => vid == 1 && l == 1

lemma keysF8 (m : ℚ) : keysF (d8data m) objs8 = {(1, 1)} := rfl

lemma venteById8 (m : ℚ) :
    venteById (d8data m) 1 =
      some { id := 1, quantite_annuelle := some 1, montant_annuel := some m,
             prix_bdpm := none } := rfl

lemma prodOf8 (m : ℚ) :
    prodOf (d8data m) 1 1 =
      some { prix_ht := some 1, remise_pct := some 0 } := rfl

lemma gain8 (m : ℚ) : gain (d8data m) 1 1 = 1 / 10 := by
  unfold gain
  rw [venteById8, prodOf8]
  simp only [Option.getD_some]
  rw [show negoOf (d8data m) 1 = 10 from rfl]
  rw [max_eq_right (by norm_num : (0:ℚ) ≤ 10)]
  norm_num

lemma sel8 (m : ℚ) : selectedKeys (d8data m) objs8 sol8 = {(1, 1)} := rfl

lemma solValue8 (m : ℚ) : solValue (d8data m) objs8 sol8 = 1 / 10 := by
  rw [solValue, sel8, Finset.sum_singleton]
  exact gain8 m

lemma solValue8_le (m : ℚ) (sol2 : Nat → Nat → Bool) :
    solValue (d8data m) objs8 sol2 ≤ 1 / 10 := by
  rw [solValue, selectedKeys]
  calc ((keysF (d8data m) objs8).filter (fun k => sol2 k.1 k.2)).sum
        (fun k => gain (d8data m) k.1 k.2)
      ≤ (keysF (d8data m) objs8).sum (fun k => gain (d8data m) k.1 k.2) := by
        refine Finset.sum_le_sum_of_subset_of_nonneg
          (Finset.filter_subset _ _) ?_
        intro k hk _
        rw [keysF8, Finset.mem_singleton] at hk
        subst hk
        rw [gain8]
        norm_num
    _ = 1 / 10 := by
        rw [keysF8, Finset.sum_singleton]
        exact gain8 m

lemma feas8 (m : ℚ) : Feasible (d8data m) objs8 sol8 := by
  constructor
  · intro v hv
    refine le_trans (Finset.card_filter_le _ _) ?_
    rw [keysF8]
    rfl
  · intro obj hobj h0
    simp only [objs8, List.mem_singleton] at hobj
    subst hobj
    rw [show get_objectif_minimum { labo_id := 1 }
      (potentiel (d8data m) objs8 1) = 0 from rfl] at h0
    exact absurd h0 (lt_irrefl 0)

lemma optimal8 (m : ℚ) : OptimalSol (d8data m) objs8 sol8 := by
  refine ⟨feas8 m, fun sol2 _ => ?_⟩
  rw [solValue8]
  exact solValue8_le m sol2

lemma opt8 (m : ℚ) :
    (optimize_multi_labo (d8data m) objs8 RawStatus.optimal sol8).remise_totale
      = solValue (d8data m) objs8 sol8 := rfl

lemma greedy8 (m : ℚ) :
    (find_best_combo_greedy (d8data m) 1 1).montant_remise_total =
      estimate_remise
        (calculate_lab_coverage (d8data m) 1 (venteIdsF (d8data m))) := rfl

lemma cov8 (m : ℚ) :
    calculate_lab_coverage (d8data m) 1 (venteIdsF (d8data m)) =
      { labo_id := 1, labo_nom := strOf "LAB", remise_negociee := 10,
        ventes_couvertes := {1}, montant_couvert := m, nb_produits := 1 } := by
  unfold calculate_lab_coverage
  rw [show (d8data m).labos.find? (fun lab => lab.id == 1) =
    some { id := 1, nom := strOf "LAB", remise_negociee := some 10,
           actif := true } from rfl]
  simp only []
  rw [show (venteIdsF (d8data m)).filter
      (fun vid => ((d8data m).matching vid 1).isSome) = ({1} : Finset Nat)
    from rfl]
  rw [Finset.sum_singleton]
  rfl

lemma est8 (m : ℚ) (hm : 0 < m) :
    estimate_remise (calculate_lab_coverage (d8data m) 1 (venteIdsF (d8data m)))
      = m * 10 / 100 := by
  rw [cov8]
  unfold estimate_remise
  simp only []
  rw [if_neg (not_le.mpr hm)]

/-- C8 counterexample: one sale line with declared annual amount 1000 but
price-times-quantity 1.  Every objective minimum is zero and the assignment
is optimal, yet the optimizer's total rebate is 0.1 while the greedy
heuristic reports 100: the heuristic prices its rebate on the declared
annual amount, the optimizer on price times quantity. -/
theorem C8_counterexample :
    (∀ obj ∈ objs8, get_objectif_minimum obj
        (potentiel (d8data 1000) objs8 obj.labo_id) = 0) ∧
    OptimalSol (d8data 1000) objs8 sol8 ∧
    (optimize_multi_labo (d8data 1000) objs8
        RawStatus.optimal sol8).remise_totale
      < (find_best_combo_greedy (d8data 1000) 1 1).montant_remise_total := by
  refine ⟨?_, optimal8 1000, ?_⟩
  · intro obj hobj
    simp only [objs8, List.mem_singleton] at hobj
    subst hobj
    rfl
  · rw [opt8, solValue8, greedy8, est8 1000 (by norm_num)]
    norm_num

lemma venteById_of_mem (d : OptData) {vid : Nat} (hv : vid ∈ venteIdsF d) :
    ∃ v, venteById d vid = some v ∧ v ∈ d.ventes ∧ v.id = vid := by
  rw [venteIdsF, List.mem_toFinset, List.mem_map] at hv
  obtain ⟨v, hvmem, hvid⟩ := hv
  have hsome : (d.ventes.find? (fun w => w.id == vid)).isSome := by
    rw [List.find?_isSome]
    exact ⟨v, hvmem, by simp [hvid]⟩
  obtain ⟨w, hw⟩ := Option.isSome_iff_exists.mp hsome
  refine ⟨w, hw, List.mem_of_find?_eq_some hw, ?_⟩
  have hpw := List.find?_some hw
  simpa using hpw

lemma negoOf_nonneg (d : OptData)
    (hnego : ∀ lab ∈ d.labos, 0 ≤ lab.remise_negociee.getD 0) (l : Nat) :
    0 ≤ negoOf d l := by
  unfold negoOf
  cases hfind : d.labos.find? (fun lab => lab.id == l) with
  | none => exact le_refl 0
  | some lab => exact hnego lab (List.mem_of_find?_eq_some hfind)

lemma gain_nonneg (d : OptData) (objs : List LaboObjective)
    (hq : ∀ v ∈ d.ventes, 0 < v.quantite_annuelle.getD 0)
    (hmatch : ∀ v ∈ d.ventes, ∀ l pid, d.matching v.id l = some pid →
      ∃ p, d.produit pid = some p ∧ 0 ≤ p.prix_ht.getD 0 ∧
        v.montant_annuel.getD 0 ≤
          p.prix_ht.getD 0 * ((v.quantite_annuelle.getD 0 : Int) : ℚ) ∧
        exclCombined d objs l pid = false)
    (hnego : ∀ lab ∈ d.labos, 0 ≤ lab.remise_negociee.getD 0)
    (vid l : Nat) : 0 ≤ gain d vid l := by
  unfold gain
  cases hvenv : venteById d vid with
  | none => exact le_refl 0
  | some v =>
      cases hprod : prodOf d vid l with
      | none => exact le_refl 0
      | some p =>
          simp only []
          have hvmem : v ∈ d.ventes := List.mem_of_find?_eq_some hvenv
          have hvid : v.id = vid := by
            have hpw := List.find?_some hvenv
            simpa using hpw
          obtain ⟨pid, hpid, hpp⟩ :
              ∃ pid, d.matching vid l = some pid ∧ d.produit pid = some p := by
            unfold prodOf at hprod
            cases hm : d.matching vid l with
            | none => rw [hm] at hprod; exact absurd hprod (by simp)
            | some pid =>
                rw [hm] at hprod
                exact ⟨pid, rfl, hprod⟩
          obtain ⟨p2, hp2, hprix, _, _⟩ :=
            hmatch v hvmem l pid (by rw [hvid]; exact hpid)
          have hpeq : p2 = p := by
            rw [hp2] at hpp
            exact Option.some.inj hpp
          subst hpeq
          have hq0 : (0:ℚ) ≤ ((v.quantite_annuelle.getD 0 : Int) : ℚ) := by
            have := hq v hvmem
            exact_mod_cast le_of_lt this
          have hmax : (0:ℚ) ≤ max (p2.remise_pct.getD 0) (negoOf d l) :=
            le_trans (negoOf_nonneg d hnego l) (le_max_right _ _)
          have : (0:ℚ) ≤ p2.prix_ht.getD 0 *
              ((v.quantite_annuelle.getD 0 : Int) : ℚ) *
              max (p2.remise_pct.getD 0) (negoOf d l) :=
            mul_nonneg (mul_nonneg hprix hq0) hmax
          exact div_nonneg this (by norm_num)

lemma clc_vc_mem (d : OptData) (l : Nat) (S : Finset Nat) {vid : Nat}
    (h : vid ∈ (calculate_lab_coverage d l S).ventes_couvertes) :
    vid ∈ S ∧ ((d.matching vid l).isSome : Bool) = true := by
  unfold calculate_lab_coverage at h
  cases hfind : d.labos.find? (fun lab => lab.id == l) with
  | none =>
      rw [hfind] at h
      exact absurd h (Finset.not_mem_empty vid)
  | some lab =>
      rw [hfind] at h
      simp only [] at h
      rw [Finset.mem_filter] at h
      exact h

lemma keysF_mem (d : OptData) (objs : List LaboObjective)
    (hq : ∀ v ∈ d.ventes, 0 < v.quantite_annuelle.getD 0)
    (hmatch : ∀ v ∈ d.ventes, ∀ l pid, d.matching v.id l = some pid →
      ∃ p, d.produit pid = some p ∧ 0 ≤ p.prix_ht.getD 0 ∧
        v.montant_annuel.getD 0 ≤
          p.prix_ht.getD 0 * ((v.quantite_annuelle.getD 0 : Int) : ℚ) ∧
        exclCombined d objs l pid = false)
    {vid l : Nat} (hv : vid ∈ venteIdsF d) (hl : l ∈ laboIdsF objs)
    (hm : ((d.matching vid l).isSome : Bool) = true) :
    (vid, l) ∈ keysF d objs := by
  rw [keysF, Finset.mem_filter, Finset.mem_product]
  refine ⟨⟨hv, hl⟩, ?_⟩
  obtain ⟨v, heqv, hvmem, hvid⟩ := venteById_of_mem d hv
  obtain ⟨pid, hpid⟩ := Option.isSome_iff_exists.mp hm
  obtain ⟨p, hp, _, _, hex⟩ := hmatch v hvmem l pid (by rw [hvid]; exact hpid)
  unfold keyActive
  rw [heqv]
  simp only []
  rw [hpid]
  simp only []
  rw [hp, hex]
  simp [hq v hvmem]

lemma estimate_le_gain_sum (d : OptData) (objs : List LaboObjective)
    (hq : ∀ v ∈ d.ventes, 0 < v.quantite_annuelle.getD 0)
    (hmatch : ∀ v ∈ d.ventes, ∀ l pid, d.matching v.id l = some pid →
      ∃ p, d.produit pid = some p ∧ 0 ≤ p.prix_ht.getD 0 ∧
        v.montant_annuel.getD 0 ≤
          p.prix_ht.getD 0 * ((v.quantite_annuelle.getD 0 : Int) : ℚ) ∧
        exclCombined d objs l pid = false)
    (hnego : ∀ lab ∈ d.labos, 0 ≤ lab.remise_negociee.getD 0)
    (S : Finset Nat) (hS : S ⊆ venteIdsF d) (l : Nat) :
    estimate_remise (calculate_lab_coverage d l S) ≤
      ((calculate_lab_coverage d l S).ventes_couvertes).sum
        (fun vid => gain d vid l) := by
  unfold calculate_lab_coverage
  cases hfind : d.labos.find? (fun lab => lab.id == l) with
  | none =>
      simp only []
      unfold estimate_remise
      simp only []
      rw [if_pos (le_refl (0:ℚ))]
      rw [Finset.sum_empty]
  | some lab =>
      simp only []
      unfold estimate_remise
      simp only []
      split
      · exact Finset.sum_nonneg
          (fun vid _ => gain_nonneg d objs hq hmatch hnego vid l)
      · have hnego0 : 0 ≤ lab.remise_negociee.getD 0 :=
          hnego lab (List.mem_of_find?_eq_some hfind)
        rw [Finset.sum_mul, Finset.sum_div]
        refine Finset.sum_le_sum ?_
        intro vid hvid
        rw [Finset.mem_filter] at hvid
        obtain ⟨v, heqv, hvmem, hvid_eq⟩ := venteById_of_mem d (hS hvid.1)
        obtain ⟨pid, hpid⟩ := Option.isSome_iff_exists.mp hvid.2
        obtain ⟨p, hp, hprix, hle, _⟩ :=
          hmatch v hvmem l pid (by rw [hvid_eq]; exact hpid)
        have hprod : prodOf d vid l = some p := by
          unfold prodOf
          rw [hpid]
          exact hp
        have hgain : gain d vid l =
            p.prix_ht.getD 0 * ((v.quantite_annuelle.getD 0 : Int) : ℚ) *
              max (p.remise_pct.getD 0) (negoOf d l) / 100 := by
          unfold gain
          rw [heqv, hprod]
        have hnegoOf : negoOf d l = lab.remise_negociee.getD 0 := by
          unfold negoOf
          rw [hfind]
        rw [heqv]
        simp only []
        rw [hgain]
        refine (div_le_div_right (by norm_num : (0:ℚ) < 100)).mpr ?_
        have hq0 : (0:ℚ) ≤ ((v.quantite_annuelle.getD 0 : Int) : ℚ) := by
          have := hq v hvmem
          exact_mod_cast le_of_lt this
        refine mul_le_mul hle ?_ hnego0 (mul_nonneg hprix hq0)
        rw [hnegoOf]
        exact le_max_right _ _

/-- The body of the inner `for labo in other_labos` fold of the greedy
loop, named for reasoning. -/
def pickStep (d : OptData) (restantes : Finset Nat)
    (best : Option LaboCoverage × ℚ) (lab : OptLabo) :
    Option LaboCoverage × ℚ :=
  let cov := calculate_lab_coverage d lab.id restantes
  if cov.ventes_couvertes = ∅ then best
  else
    let rem := estimate_remise cov
    if best.2 < rem then (some cov, rem) else best

lemma greedyPick_eq (d : OptData) (restantes : Finset Nat)
    (cands : List OptLabo) :
    greedyPick d restantes cands = cands.foldl (pickStep d restantes) (none, 0)
    := rfl

lemma pickStep_foldl_spec (d : OptData) (restantes : Finset Nat)
    (Q : Nat → Prop) :
    ∀ (cands : List OptLabo), (∀ lab ∈ cands, Q lab.id) →
    ∀ (acc : Option LaboCoverage × ℚ),
      (∀ cov, acc.1 = some cov →
        ∃ lid, Q lid ∧ cov = calculate_lab_coverage d lid restantes ∧
          acc.2 = estimate_remise cov) →
      ∀ cov, (cands.foldl (pickStep d restantes) acc).1 = some cov →
        ∃ lid, Q lid ∧ cov = calculate_lab_coverage d lid restantes ∧
          (cands.foldl (pickStep d restantes) acc).2 = estimate_remise cov := by
  intro cands
  induction cands with
  | nil =>
      intro _ acc hacc cov h
      exact hacc cov h
  | cons lab t ih =>
      intro hQ acc hacc
      rw [List.foldl_cons]
      refine ih (fun l hl => hQ l (List.mem_cons_of_mem lab hl)) _ ?_
      intro cov h
      unfold pickStep at h ⊢
      by_cases hemp :
          (calculate_lab_coverage d lab.id restantes).ventes_couvertes = ∅
      · rw [if_pos hemp] at h ⊢
        exact hacc cov h
      · rw [if_neg hemp] at h ⊢
        by_cases hlt :
            acc.2 < estimate_remise (calculate_lab_coverage d lab.id restantes)
        · rw [if_pos hlt] at h ⊢
          have hcov : cov = calculate_lab_coverage d lab.id restantes :=
            (Option.some.inj h).symm
          subst hcov
          exact ⟨lab.id, hQ lab (List.mem_cons_self lab t), rfl, rfl⟩
        · rw [if_neg hlt] at h ⊢
          exact hacc cov h

lemma greedyLoop_succ (d : OptData) (principal fuel : Nat)
    (s : List LaboCoverage) (c : Finset Nat) (t : ℚ) :
    greedyLoop d principal (fuel + 1) s c t =
      if venteIdsF d \ c = ∅ then (s, c, t)
      else
        match greedyPick d (venteIdsF d \ c)
            (d.labos.filter (fun lab =>
              lab.id != principal && lab.actif &&
                !(s.any (fun l => l.labo_id == lab.id)))) with
        | (some cov, rem) =>
            if 0 < rem then
              greedyLoop d principal fuel (s ++ [cov])
                (c ∪ cov.ventes_couvertes) (t + rem)
            else (s, c, t)
        | (none, _) => (s, c, t) := rfl

lemma greedyLoop_bound (d : OptData) (objs : List LaboObjective)
    (principal : Nat)
    (hq : ∀ v ∈ d.ventes, 0 < v.quantite_annuelle.getD 0)
    (hmatch : ∀ v ∈ d.ventes, ∀ l pid, d.matching v.id l = some pid →
      ∃ p, d.produit pid = some p ∧ 0 ≤ p.prix_ht.getD 0 ∧
        v.montant_annuel.getD 0 ≤
          p.prix_ht.getD 0 * ((v.quantite_annuelle.getD 0 : Int) : ℚ) ∧
        exclCombined d objs l pid = false)
    (hnego : ∀ lab ∈ d.labos, 0 ≤ lab.remise_negociee.getD 0)
    (hact : ∀ lab ∈ d.labos, lab.actif = true → lab.id ∈ laboIdsF objs) :
    ∀ (fuel : Nat) (s : List LaboCoverage) (c : Finset Nat)
      (t : ℚ) (A : Finset (Nat × Nat)),
      A ⊆ keysF d objs →
      (∀ k1 ∈ A, ∀ k2 ∈ A, k1.1 = k2.1 → k1 = k2) →
      (∀ k ∈ A, k.1 ∈ c) →
      t ≤ A.sum (fun k => gain d k.1 k.2) →
      ∃ B : Finset (Nat × Nat), B ⊆ keysF d objs ∧
        (∀ k1 ∈ B, ∀ k2 ∈ B, k1.1 = k2.1 → k1 = k2) ∧
        (greedyLoop d principal fuel s c t).2.2 ≤
          B.sum (fun k => gain d k.1 k.2) := by
  intro fuel
  induction fuel with
  | zero =>
      intro s c t A hA hinj hcov htot
      exact ⟨A, hA, hinj, htot⟩
  | succ fuel ih =>
      intro s c t A hA hinj hcov htot
      rw [greedyLoop_succ]
      by_cases hres : venteIdsF d \ c = ∅
      · rw [if_pos hres]
        exact ⟨A, hA, hinj, htot⟩
      · rw [if_neg hres]
        rcases hpk : greedyPick d (venteIdsF d \ c)
            (d.labos.filter (fun lab =>
              lab.id != principal && lab.actif &&
                !(s.any (fun l => l.labo_id == lab.id)))) with ⟨o, r⟩
        cases o with
        | none =>
            simp only []
            exact ⟨A, hA, hinj, htot⟩
        | some cov =>
            simp only []
            by_cases hr : 0 < r
            case neg =>
              rw [if_neg hr]
              exact ⟨A, hA, hinj, htot⟩
            case pos =>
              rw [if_pos hr]
              have hQ : ∀ lab ∈ d.labos.filter (fun lab =>
                  lab.id != principal && lab.actif &&
                    !(s.any (fun l => l.labo_id == lab.id))),
                  lab.id ∈ laboIdsF objs := by
                intro lab hl
                rw [List.mem_filter] at hl
                have hb := hl.2
                simp only [Bool.and_eq_true] at hb
                refine hact lab hl.1 ?_
                tauto
              have hacc0 : ∀ cv,
                  ((none, 0) : Option LaboCoverage × ℚ).1 = some cv →
                  ∃ lid, lid ∈ laboIdsF objs ∧
                    cv = calculate_lab_coverage d lid (venteIdsF d \ c) ∧
                    ((none, 0) : Option LaboCoverage × ℚ).2 =
                      estimate_remise cv := by
                intro cv h
                exact absurd h (by simp)
              have hspec := pickStep_foldl_spec d (venteIdsF d \ c)
                (fun lid => lid ∈ laboIdsF objs) _ hQ (none, 0) hacc0 cov
                (by rw [← greedyPick_eq, hpk])
              obtain ⟨lid, hlid, hcove, hrem⟩ := hspec
              rw [← greedyPick_eq, hpk] at hrem
              have hr_eq : r = estimate_remise cov := hrem
              have hvcmem : ∀ vid ∈ cov.ventes_couvertes,
                  vid ∈ venteIdsF d \ c ∧
                    ((d.matching vid lid).isSome : Bool) = true := by
                intro vid hvid
                rw [hcove] at hvid
                exact clc_vc_mem d lid _ hvid
              have hA'sub : A ∪ cov.ventes_couvertes.image
                  (fun vid => (vid, lid)) ⊆ keysF d objs := by
                intro k hk
                rw [Finset.mem_union] at hk
                rcases hk with hk | hk
                · exact hA hk
                · rw [Finset.mem_image] at hk
                  obtain ⟨vid, hvid, hkeq⟩ := hk
                  subst hkeq
                  obtain ⟨hvr, hvm⟩ := hvcmem vid hvid
                  rw [Finset.mem_sdiff] at hvr
                  exact keysF_mem d objs hq hmatch hvr.1 hlid hvm
              have hA'inj : ∀ k1 ∈ A ∪ cov.ventes_couvertes.image
                  (fun vid => (vid, lid)),
                  ∀ k2 ∈ A ∪ cov.ventes_couvertes.image
                    (fun vid => (vid, lid)), k1.1 = k2.1 → k1 = k2 := by
                intro k1 hk1 k2 hk2 hfst
                rw [Finset.mem_union] at hk1 hk2
                rcases hk1 with hk1 | hk1 <;> rcases hk2 with hk2 | hk2
                · exact hinj k1 hk1 k2 hk2 hfst
                · exfalso
                  rw [Finset.mem_image] at hk2
                  obtain ⟨vid, hvid, hkeq⟩ := hk2
                  have h1 : k1.1 ∈ c := hcov k1 hk1
                  have h2 := (hvcmem vid hvid).1
                  rw [Finset.mem_sdiff] at h2
                  subst hkeq
                  rw [hfst] at h1
                  exact h2.2 h1
                · exfalso
                  rw [Finset.mem_image] at hk1
                  obtain ⟨vid, hvid, hkeq⟩ := hk1
                  have h1 : k2.1 ∈ c := hcov k2 hk2
                  have h2 := (hvcmem vid hvid).1
                  rw [Finset.mem_sdiff] at h2
                  subst hkeq
                  rw [← hfst] at h1
                  exact h2.2 h1
                · rw [Finset.mem_image] at hk1 hk2
                  obtain ⟨vid1, hvid1, hkeq1⟩ := hk1
                  obtain ⟨vid2, hvid2, hkeq2⟩ := hk2
                  subst hkeq1
                  subst hkeq2
                  simp only [] at hfst
                  rw [hfst]
              have hA'cov : ∀ k ∈ A ∪ cov.ventes_couvertes.image
                  (fun vid => (vid, lid)),
                  k.1 ∈ c ∪ cov.ventes_couvertes := by
                intro k hk
                rw [Finset.mem_union] at hk
                rw [Finset.mem_union]
                rcases hk with hk | hk
                · exact Or.inl (hcov k hk)
                · rw [Finset.mem_image] at hk
                  obtain ⟨vid, hvid, hkeq⟩ := hk
                  subst hkeq
                  exact Or.inr hvid
              have hdisj : Disjoint A (cov.ventes_couvertes.image
                  (fun vid => (vid, lid))) := by
                rw [Finset.disjoint_left]
                intro k hk1 hk2
                rw [Finset.mem_image] at hk2
                obtain ⟨vid, hvid, hkeq⟩ := hk2
                have h1 : k.1 ∈ c := hcov k hk1
                have h2 := (hvcmem vid hvid).1
                rw [Finset.mem_sdiff] at h2
                subst hkeq
                exact h2.2 h1
              have hsum_img : (cov.ventes_couvertes.image
                  (fun vid => (vid, lid))).sum (fun k => gain d k.1 k.2) =
                  cov.ventes_couvertes.sum (fun vid => gain d vid lid) :=
                Finset.sum_image
                  (fun x _ y _ h => by simpa using congrArg Prod.fst h)
              have hrbound : r ≤ cov.ventes_couvertes.sum
                  (fun vid => gain d vid lid) := by
                have hb := estimate_le_gain_sum d objs hq hmatch hnego
                  (venteIdsF d \ c) Finset.sdiff_subset lid
                rw [← hcove] at hb
                rw [hr_eq]
                exact hb
              have htot' : t + r ≤ (A ∪ cov.ventes_couvertes.image
                  (fun vid => (vid, lid))).sum (fun k => gain d k.1 k.2) := by
                rw [Finset.sum_union hdisj, hsum_img]
                exact add_le_add htot hrbound
              exact ih (s ++ [cov]) (c ∪ cov.ventes_couvertes) (t + r) _
                hA'sub hA'inj hA'cov htot'

lemma find_best_combo_le (d : OptData) (objs : List LaboObjective)
    (hq : ∀ v ∈ d.ventes, 0 < v.quantite_annuelle.getD 0)
    (hmatch : ∀ v ∈ d.ventes, ∀ l pid, d.matching v.id l = some pid →
      ∃ p, d.produit pid = some p ∧ 0 ≤ p.prix_ht.getD 0 ∧
        v.montant_annuel.getD 0 ≤
          p.prix_ht.getD 0 * ((v.quantite_annuelle.getD 0 : Int) : ℚ) ∧
        exclCombined d objs l pid = false)
    (hnego : ∀ lab ∈ d.labos, 0 ≤ lab.remise_negociee.getD 0)
    (hact : ∀ lab ∈ d.labos, lab.actif = true → lab.id ∈ laboIdsF objs)
    (principal maxLabos : Nat) (hprin : principal ∈ laboIdsF objs) :
    ∃ B : Finset (Nat × Nat), B ⊆ keysF d objs ∧
      (∀ k1 ∈ B, ∀ k2 ∈ B, k1.1 = k2.1 → k1 = k2) ∧
      (find_best_combo_greedy d principal maxLabos).montant_remise_total ≤
        B.sum (fun k => gain d k.1 k.2) := by
  by_cases he : d.ventes.isEmpty
  · refine ⟨∅, Finset.empty_subset _, ?_, ?_⟩
    · intro k1 hk1
      exact absurd hk1 (Finset.not_mem_empty k1)
    · rw [show (find_best_combo_greedy d principal
          maxLabos).montant_remise_total = 0 from by
        unfold find_best_combo_greedy; rw [if_pos he]]
      rw [Finset.sum_empty]
  · have heq : (find_best_combo_greedy d principal
        maxLabos).montant_remise_total =
        (greedyLoop d principal (maxLabos - 1)
          [calculate_lab_coverage d principal (venteIdsF d)]
          (calculate_lab_coverage d principal (venteIdsF d)).ventes_couvertes
          (estimate_remise
            (calculate_lab_coverage d principal (venteIdsF d)))).2.2 := by
      unfold find_best_combo_greedy
      rw [if_neg he]
    rw [heq]
    have hvc : ∀ vid ∈ (calculate_lab_coverage d principal
        (venteIdsF d)).ventes_couvertes,
        vid ∈ venteIdsF d ∧ ((d.matching vid principal).isSome : Bool) = true :=
      fun vid hvid => clc_vc_mem d principal _ hvid
    have hA0sub : (calculate_lab_coverage d principal
        (venteIdsF d)).ventes_couvertes.image (fun vid => (vid, principal)) ⊆
        keysF d objs := by
      intro k hk
      rw [Finset.mem_image] at hk
      obtain ⟨vid, hvid, hkeq⟩ := hk
      subst hkeq
      exact keysF_mem d objs hq hmatch (hvc vid hvid).1 hprin (hvc vid hvid).2
    have hA0inj : ∀ k1 ∈ (calculate_lab_coverage d principal
        (venteIdsF d)).ventes_couvertes.image (fun vid => (vid, principal)),
        ∀ k2 ∈ (calculate_lab_coverage d principal
          (venteIdsF d)).ventes_couvertes.image (fun vid => (vid, principal)),
        k1.1 = k2.1 → k1 = k2 := by
      intro k1 hk1 k2 hk2 hfst
      rw [Finset.mem_image] at hk1 hk2
      obtain ⟨vid1, hvid1, hkeq1⟩ := hk1
      obtain ⟨vid2, hvid2, hkeq2⟩ := hk2
      subst hkeq1
      subst hkeq2
      simp only [] at hfst
      rw [hfst]
    have hA0cov : ∀ k ∈ (calculate_lab_coverage d principal
        (venteIdsF d)).ventes_couvertes.image (fun vid => (vid, principal)),
        k.1 ∈ (calculate_lab_coverage d principal
          (venteIdsF d)).ventes_couvertes := by
      intro k hk
      rw [Finset.mem_image] at hk
      obtain ⟨vid, hvid, hkeq⟩ := hk
      subst hkeq
      exact hvid
    have hsum_img : ((calculate_lab_coverage d principal
        (venteIdsF d)).ventes_couvertes.image (fun vid => (vid, principal))).sum
        (fun k => gain d k.1 k.2) =
        (calculate_lab_coverage d principal (venteIdsF d)).ventes_couvertes.sum
          (fun vid => gain d vid principal) :=
      Finset.sum_image (fun x _ y _ h => by simpa using congrArg Prod.fst h)
    have htot0 : estimate_remise (calculate_lab_coverage d principal
        (venteIdsF d)) ≤ ((calculate_lab_coverage d principal
        (venteIdsF d)).ventes_couvertes.image (fun vid => (vid, principal))).sum
        (fun k => gain d k.1 k.2) := by
      rw [hsum_img]
      exact estimate_le_gain_sum d objs hq hmatch hnego (venteIdsF d)
        (Finset.Subset.refl _) principal
    exact greedyLoop_bound d objs principal hq hmatch hnego hact (maxLabos - 1)
      _ _ _ _ hA0sub hA0inj hA0cov htot0

lemma opt_remise_eq (d : OptData) (objs : List LaboObjective)
    (sol : Nat → Nat → Bool) :
    (optimize_multi_labo d objs RawStatus.optimal sol).remise_totale =
      solValue d objs sol := by
  unfold optimize_multi_labo
  by_cases he : d.ventes.isEmpty
  · rw [if_pos he]
    have hnil : d.ventes = [] := by
      cases hv : d.ventes with
      | nil => rfl
      | cons a l =>
          rw [hv] at he
          exact absurd he (by simp)
    show (0:ℚ) = solValue d objs sol
    rw [solValue, selectedKeys, keysF, venteIdsF, hnil]
    simp
  · rw [if_neg he, if_neg (fun h => h.1 rfl)]

/-- C8 (corrected): the optimizer's total rebate dominates the greedy
heuristic's only under data-consistency hypotheses reconciling their two
rebate bases: positive quantities, every matched product resolvable,
unexcluded, nonnegatively priced and with the line's declared annual amount
at most price times quantity, nonnegative negotiated rebates, and the
principal and every active labo among the objectives' labos.  Then, with
every objective left at zero and an optimal assignment, the greedy
`montant_remise_total` never exceeds the optimizer's `remise_totale`. -/
theorem C8_amended (d : OptData) (objs : List LaboObjective)
    (sol : Nat → Nat → Bool) (principal maxLabos : Nat)
    (hzero : ∀ obj ∈ objs,
      obj.objectif_montant = none ∧ obj.objectif_pct = none)
    (hOpt : OptimalSol d objs sol)
    (hq : ∀ v ∈ d.ventes, 0 < v.quantite_annuelle.getD 0)
    (hmatch : ∀ v ∈ d.ventes, ∀ l pid, d.matching v.id l = some pid →
      ∃ p, d.produit pid = some p ∧ 0 ≤ p.prix_ht.getD 0 ∧
        v.montant_annuel.getD 0 ≤
          p.prix_ht.getD 0 * ((v.quantite_annuelle.getD 0 : Int) : ℚ) ∧
        exclCombined d objs l pid = false)
    (hnego : ∀ lab ∈ d.labos, 0 ≤ lab.remise_negociee.getD 0)
    (hprin : principal ∈ laboIdsF objs)
    (hact : ∀ lab ∈ d.labos, lab.actif = true → lab.id ∈ laboIdsF objs) :
    (find_best_combo_greedy d principal maxLabos).montant_remise_total ≤
      (optimize_multi_labo d objs RawStatus.optimal sol).remise_totale := by
  obtain ⟨B, hB, hBinj, hle⟩ :=
    find_best_combo_le d objs hq hmatch hnego hact principal maxLabos hprin
  rw [opt_remise_eq]
  have hsel : selectedKeys d objs (fun vid l => decide ((vid, l) ∈ B)) = B := by
    rw [selectedKeys]
    ext k
    rw [Finset.mem_filter]
    constructor
    · intro hk
      have hk2 := hk.2
      rw [decide_eq_true_eq] at hk2
      exact hk2
    · intro hk
      refine ⟨hB hk, ?_⟩
      rw [decide_eq_true_eq]
      exact hk
  have hfeas : Feasible d objs (fun vid l => decide ((vid, l) ∈ B)) := by
    constructor
    · intro v hv
      rw [Finset.card_le_one]
      intro a ha b hb
      rw [Finset.mem_filter] at ha hb
      have haB : a ∈ B := by
        have h2 := ha.2.2
        rw [decide_eq_true_eq] at h2
        exact h2
      have hbB : b ∈ B := by
        have h2 := hb.2.2
        rw [decide_eq_true_eq] at h2
        exact h2
      exact hBinj a haB b hbB (by rw [ha.2.1, hb.2.1])
    · intro obj hobj h0
      obtain ⟨hm, hp⟩ := hzero obj hobj
      have hmin : get_objectif_minimum obj
          (potentiel d objs obj.labo_id) = 0 := by
        unfold get_objectif_minimum
        rw [hm, hp]
      rw [hmin] at h0
      exact absurd h0 (lt_irrefl 0)
  calc (find_best_combo_greedy d principal maxLabos).montant_remise_total
      ≤ B.sum (fun k => gain d k.1 k.2) := hle
    _ = solValue d objs (fun vid l => decide ((vid, l) ∈ B)) := by
        rw [solValue, hsel]
    _ ≤ solValue d objs sol := hOpt.2 _ hfeas

lemma hmatch8w : ∀ v ∈ (d8data 1).ventes, ∀ l pid,
    (d8data 1).matching v.id l = some pid →
    ∃ p, (d8data 1).produit pid = some p ∧ 0 ≤ p.prix_ht.getD 0 ∧
      v.montant_annuel.getD 0 ≤
        p.prix_ht.getD 0 * ((v.quantite_annuelle.getD 0 : Int) : ℚ) ∧
      exclCombined (d8data 1) objs8 l pid = false := by
  intro v hv l pid hm
  simp only [d8data, List.mem_singleton] at hv
  subst hv
  simp only [d8data] at hm
  by_cases hl : l = 1
  · subst hl
    rw [if_pos ⟨trivial, rfl⟩] at hm
    have hpid : pid = 1 := (Option.some.inj hm).symm
    subst hpid
    refine ⟨{ prix_ht := some 1, remise_pct := some 0 }, rfl, by norm_num,
      ?_, rfl⟩
    norm_num
  · rw [if_neg (fun hc => hl hc.2)] at hm
    exact absurd hm (by simp)

theorem C8_amended_witness :
    OptimalSol (d8data 1) objs8 sol8 ∧
    (find_best_combo_greedy (d8data 1) 1 1).montant_remise_total ≤
      (optimize_multi_labo (d8data 1) objs8
        RawStatus.optimal sol8).remise_totale :=
  ⟨optimal8 1,
    C8_amended (d8data 1) objs8 sol8 1 1 (by decide) (optimal8 1) (by decide)
      hmatch8w (by decide) (by decide) (by decide)⟩

end PharmaRemises
